import Mathlib

/-!
Shallow embedding of the VHCI USB host-controller core (src/usb-vhci-hcd.c):
the transfer/port state machine that accepts URB submissions from the kernel
stack, hands them to a user-space worker, applies cancellations and worker
completions, and emulates the root hub's per-port status/change registers.

Out-of-scope glue (character-device plumbing, sysfs, module init, debug
dumps, locking and the blocking wait of the fetch path) is not modelled;
the model is the state under the single lock, with each boundary operation
embedded as a pure state transformer.  Machine integers are Nat/Int with
the masks the source applies (u16 status words, u8 flags, u32 port_update).
The configuration modelled is the modern one (OLD_GIVEBACK_MECH undefined):
the per-URB completion status is the atomic_t in struct vhci_urb_priv.
-/

namespace VhciHcd

/-! ## Error numbers (as in asm-generic errno; the driver returns their
negatives) -/

def ENOENT : Int := 2
def EINVAL : Int := 22
def EPIPE : Int := 32
def EIDRM : Int := 43
def ENODATA : Int := 61
def EPROTO : Int := 71
def ENOBUFS : Int := 105
def ESHUTDOWN : Int := 108
def ETIMEDOUT : Int := 110
def EINPROGRESS : Int := 115
def ECANCELED : Int := 125

/-! ## USB hub/port constants (linux/usb/ch11.h) -/

def USB_PORT_STAT_CONNECTION : Nat := 0x0001
def USB_PORT_STAT_ENABLE : Nat := 0x0002
def USB_PORT_STAT_SUSPEND : Nat := 0x0004
def USB_PORT_STAT_OVERCURRENT : Nat := 0x0008
def USB_PORT_STAT_RESET : Nat := 0x0010
def USB_PORT_STAT_POWER : Nat := 0x0100
def USB_PORT_STAT_LOW_SPEED : Nat := 0x0200
def USB_PORT_STAT_HIGH_SPEED : Nat := 0x0400

def USB_PORT_STAT_C_CONNECTION : Nat := 0x0001
def USB_PORT_STAT_C_ENABLE : Nat := 0x0002
def USB_PORT_STAT_C_SUSPEND : Nat := 0x0004
def USB_PORT_STAT_C_OVERCURRENT : Nat := 0x0008
def USB_PORT_STAT_C_RESET : Nat := 0x0010

def USB_PORT_FEAT_CONNECTION : Nat := 0
def USB_PORT_FEAT_ENABLE : Nat := 1
def USB_PORT_FEAT_SUSPEND : Nat := 2
def USB_PORT_FEAT_OVER_CURRENT : Nat := 3
def USB_PORT_FEAT_RESET : Nat := 4
def USB_PORT_FEAT_POWER : Nat := 8
def USB_PORT_FEAT_LOWSPEED : Nat := 9
def USB_PORT_FEAT_HIGHSPEED : Nat := 10
def USB_PORT_FEAT_C_CONNECTION : Nat := 16
def USB_PORT_FEAT_C_ENABLE : Nat := 17
def USB_PORT_FEAT_C_SUSPEND : Nat := 18
def USB_PORT_FEAT_C_OVER_CURRENT : Nat := 19
def USB_PORT_FEAT_C_RESET : Nat := 20
def USB_PORT_FEAT_INDICATOR : Nat := 22

def C_HUB_LOCAL_POWER : Nat := 0
def C_HUB_OVER_CURRENT : Nat := 1

/-- Driver-private port flag (usb-vhci.h): resume in progress. -/
def USB_VHCI_PORT_STAT_FLAG_RESUMING : Nat := 0x01

/-! ## Hub class control request codes (core/hcd.h) -/

def ClearHubFeature : Nat := 0x2001
def ClearPortFeature : Nat := 0x2301
def GetHubDescriptor : Nat := 0xa006
def GetHubStatus : Nat := 0xa000
def GetPortStatus : Nat := 0xa300
def SetHubFeature : Nat := 0x2003
def SetPortFeature : Nat := 0x2303

/-- Clear bits of a 16-bit word: the C idiom x &= ~m on a u16. -/
def andn16 (x m : Nat) : Nat := x &&& (0xffff ^^^ m)

/-- Clear bits of an 8-bit word: the C idiom x &= ~m on a u8. -/
def andn8 (x m : Nat) : Nat := x &&& (0xff ^^^ m)

/-- Clear bits of a 32-bit word: the C idiom x &= ~m on a u32. -/
def andn32 (x m : Nat) : Nat := x &&& (0xffffffff ^^^ m)

/-! ## Data model -/

/-- usb_pipetype of an urb's pipe. -/
inductive PipeType where
  | isochronous
  | interrupt
  | control
  | bulk
deriving Repr, DecidableEq, Inhabited

/-- The 8-byte control-transfer setup packet (struct usb_ctrlrequest),
little-endian fields already decoded. -/
structure SetupPacket where
  bmRequestType : Nat
  bRequest : Nat
  wValue : Nat
  wIndex : Nat
  wLength : Nat
deriving Repr, DecidableEq, Inhabited

/-- The fields of struct urb the core state machine reads or writes.
has_buffer models transfer_buffer != NULL (buffer contents are not
tracked; the user-space copies are environment effects).  unlinked is
the kernel core's urb->unlinked field, recorded by
usb_hcd_check_unlink_urb and consumed by usb_hcd_giveback_urb. -/
structure Urb where
  pipeType : PipeType
  pipeIn : Bool
  setup_packet : Option SetupPacket
  has_buffer : Bool
  transfer_buffer_length : Nat
  number_of_packets : Nat
  actual_length : Int
  error_count : Int
  unlinked : Int
deriving Repr, DecidableEq, Inhabited

/-- struct vhci_urb_priv.  handle is the urb's pointer value, the opaque
identity handed to user space.  status is the atomic_t completion status;
vhci_urb_enqueue allocates the struct with kzalloc, so it starts at 0. -/
structure VhciUrbPriv where
  handle : Nat
  urb : Urb
  status : Int
deriving Repr, DecidableEq, Inhabited

/-- struct vhci_port. -/
structure VhciPort where
  port_status : Nat
  port_change : Nat
  port_flags : Nat
deriving Repr, DecidableEq, Inhabited

/-- One invocation of usb_hcd_giveback_urb: the urb handle, the status
argument this driver passed (atomic_read of the urbp status), and the
urb's final field values. -/
structure Giveback where
  handle : Nat
  status : Int
  urb : Urb
deriving Repr, DecidableEq, Inhabited

/-- struct vhci: the controller state under the single lock.  The source
keeps port_count alongside the ports array (set together in vhci_start);
here port_count is the length of the ports list.  givebacks logs the
give-back callbacks issued so far (oldest first); work_event counts the
wake_up_interruptible calls of trigger_work_event. -/
structure Vhci where
  ports : List VhciPort
  port_sched_offset : Nat
  port_update : Nat
  inbox : List VhciUrbPriv
  fetched : List VhciUrbPriv
  cancel : List VhciUrbPriv
  canceling : List VhciUrbPriv
  givebacks : List Giveback
  work_event : Nat
deriving Repr, DecidableEq, Inhabited

def Vhci.port_count (vhc : Vhci) : Nat := vhc.ports.length

/-- ports[i] (0-based). -/
def Vhci.port (vhc : Vhci) (i : Nat) : VhciPort := vhc.ports.getD i default

def Vhci.setPort (vhc : Vhci) (i : Nat) (p : VhciPort) : Vhci :=
  { vhc with ports := vhc.ports.set i p }

/-- Which of the four urb queues a located urb lives in (in the C the
list node itself knows; list_del needs no queue pointer). -/
inductive QueueId where
  | inbox
  | fetched
  | cancel
  | canceling
deriving Repr, DecidableEq

/-- Remove the first entry with the given handle (list_del of the node a
list_for_each_entry search located). -/
def removeFirst : List VhciUrbPriv → Nat → List VhciUrbPriv
  | [], _ => []
  | x :: xs, h => if x.handle = h then xs else x :: removeFirst xs h

def delFromQueue (vhc : Vhci) (q : QueueId) (h : Nat) : Vhci :=
  match q with
  | .inbox => { vhc with inbox := removeFirst vhc.inbox h }
  | .fetched => { vhc with fetched := removeFirst vhc.fetched h }
  | .cancel => { vhc with cancel := removeFirst vhc.cancel h }
  | .canceling => { vhc with canceling := removeFirst vhc.canceling h }

/-! ## Core operations -/

/-- maybe_set_status: atomic_cmpxchg(&urbp->status, -EINPROGRESS, status) —
the write takes effect only while the field still holds -EINPROGRESS. -/
def maybe_set_status (urbp : VhciUrbPriv) (status : Int) : VhciUrbPriv :=
  if urbp.status = -EINPROGRESS then { urbp with status := status } else urbp

/-- trigger_work_event: wake_up_interruptible(&vhc->work_event). -/
def trigger_work_event (vhc : Vhci) : Vhci :=
  { vhc with work_event := vhc.work_event + 1 }

/-- vhci_urb_giveback: unlink the urbp from the queue it lives in and hand
the urb back to its creator with status = atomic_read(&urbp->status). -/
def vhci_urb_giveback (vhc : Vhci) (q : QueueId) (urbp : VhciUrbPriv) : Vhci :=
  let v := delFromQueue vhc q urbp.handle
  { v with givebacks :=
      v.givebacks ++ [{ handle := urbp.handle, status := urbp.status, urb := urbp.urb }] }

/-- Modelled from the spec: the status usb_hcd_giveback_urb (kernel core,
declared in core/hcd.h, implementation not under src/) reports to the
transfer's creator — a recorded unlink (cancellation) status takes
precedence over the status argument the driver passed. -/
def deliveredStatus (g : Giveback) : Int :=
  if g.urb.unlinked ≠ 0 then g.urb.unlinked else g.status

/-- vhci_urb_enqueue: reject a non-null length with a null buffer, else
kzalloc the urbp (status 0), tail-insert into the inbox and signal. -/
def vhci_urb_enqueue (vhc : Vhci) (handle : Nat) (urb : Urb) : Int × Vhci :=
  if urb.has_buffer = false ∧ urb.transfer_buffer_length ≠ 0 then (-EINVAL, vhc)
  else
    let urbp : VhciUrbPriv := { handle := handle, urb := urb, status := 0 }
    (0, trigger_work_event { vhc with inbox := vhc.inbox ++ [urbp] })

/-- Record urb->unlinked := s on the urb with the given handle. -/
def setUnlinkedIn (l : List VhciUrbPriv) (h : Nat) (s : Int) : List VhciUrbPriv :=
  l.map fun u =>
    if u.handle = h then { u with urb := { u.urb with unlinked := s } } else u

/-- vhci_urb_dequeue: usb_hcd_check_unlink_urb (kernel core; modelled from
the spec: it fails with -EIDRM when the urb is no longer queued, else
records the unlink status in urb->unlinked), then search the inbox — if
found there, give the urb back at once; else search fetched — if found,
move it to the cancel list and signal; a urb already in cancel/canceling
is left where it is. -/
def vhci_urb_dequeue (vhc : Vhci) (handle : Nat) (status : Int) : Int × Vhci :=
  match vhc.inbox.find? (fun u => u.handle == handle) with
  | some urbp =>
    (0, vhci_urb_giveback vhc .inbox
          { urbp with urb := { urbp.urb with unlinked := status } })
  | none =>
    match vhc.fetched.find? (fun u => u.handle == handle) with
    | some urbp =>
      (0, trigger_work_event
            { vhc with fetched := removeFirst vhc.fetched handle,
                       cancel := vhc.cancel ++
                         [{ urbp with urb := { urbp.urb with unlinked := status } }] })
    | none =>
      if (vhc.cancel.find? (fun u => u.handle == handle)).isSome ∨
         (vhc.canceling.find? (fun u => u.handle == handle)).isSome then
        (0, { vhc with cancel := setUnlinkedIn vhc.cancel handle status,
                       canceling := setUnlinkedIn vhc.canceling handle status })
      else
        (-EIDRM, vhc)

/-- userspace_needs_port_update: mark the 1-based port as needing a report
and wake the worker. -/
def userspace_needs_port_update (vhc : Vhci) (port : Nat) : Vhci :=
  trigger_work_event { vhc with port_update := vhc.port_update ||| (1 <<< port) }

/-- The ClearPortFeature arm of the switch in vhci_hub_control (split out
of the dispatcher for proof modularity). -/
def vhci_clear_port_feature (vhc : Vhci) (wValue wIndex wLength : Nat) : Int × Vhci :=
  if wIndex = 0 ∨ wIndex > vhc.port_count ∨ wLength ≠ 0 then (-EPIPE, vhc)
  else
    let p := vhc.port (wIndex - 1)
    if wValue = USB_PORT_FEAT_SUSPEND then
      if p.port_status &&& USB_PORT_STAT_SUSPEND ≠ 0 then
        (0, userspace_needs_port_update
              (vhc.setPort (wIndex - 1)
                { p with port_flags :=
                    p.port_flags ||| USB_VHCI_PORT_STAT_FLAG_RESUMING }) wIndex)
      else (0, vhc)
    else if wValue = USB_PORT_FEAT_POWER then
      if p.port_status &&& USB_PORT_STAT_POWER ≠ 0 then
        (0, userspace_needs_port_update
              (vhc.setPort (wIndex - 1)
                { p with
                    port_status := p.port_status &&& USB_PORT_STAT_OVERCURRENT,
                    port_change := p.port_change &&& USB_PORT_STAT_C_OVERCURRENT,
                    port_flags := andn8 p.port_flags USB_VHCI_PORT_STAT_FLAG_RESUMING })
              wIndex)
      else (0, vhc)
    else if wValue = USB_PORT_FEAT_ENABLE then
      if p.port_status &&& USB_PORT_STAT_ENABLE ≠ 0 then
        (0, userspace_needs_port_update
              (vhc.setPort (wIndex - 1)
                { p with
                    port_status := andn16 p.port_status
                      (USB_PORT_STAT_ENABLE ||| USB_PORT_STAT_SUSPEND),
                    port_change := andn16 p.port_change
                      (USB_PORT_STAT_C_ENABLE ||| USB_PORT_STAT_C_SUSPEND),
                    port_flags := andn8 p.port_flags USB_VHCI_PORT_STAT_FLAG_RESUMING })
              wIndex)
      else (0, vhc)
    else if wValue = USB_PORT_FEAT_CONNECTION ∨ wValue = USB_PORT_FEAT_OVER_CURRENT ∨
            wValue = USB_PORT_FEAT_RESET ∨ wValue = USB_PORT_FEAT_LOWSPEED ∨
            wValue = USB_PORT_FEAT_HIGHSPEED ∨ wValue = USB_PORT_FEAT_INDICATOR then
      (0, vhc)
    else if wValue = USB_PORT_FEAT_C_CONNECTION ∨ wValue = USB_PORT_FEAT_C_ENABLE ∨
            wValue = USB_PORT_FEAT_C_SUSPEND ∨ wValue = USB_PORT_FEAT_C_OVER_CURRENT ∨
            wValue = USB_PORT_FEAT_C_RESET then
      if p.port_change &&& (1 <<< (wValue - 16)) ≠ 0 then
        (0, userspace_needs_port_update
              (vhc.setPort (wIndex - 1)
                { p with port_change := andn16 p.port_change (1 <<< (wValue - 16)) })
              wIndex)
      else (0, vhc)
    else (-EPIPE, vhc)

/-- The SetPortFeature arm of the switch in vhci_hub_control (split out of
the dispatcher for proof modularity). -/
def vhci_set_port_feature (vhc : Vhci) (wValue wIndex wLength : Nat) : Int × Vhci :=
  if wIndex = 0 ∨ wIndex > vhc.port_count ∨ wLength ≠ 0 then (-EPIPE, vhc)
  else
    let p := vhc.port (wIndex - 1)
    if wValue = USB_PORT_FEAT_SUSPEND then
      if p.port_status &&& USB_PORT_STAT_ENABLE ≠ 0 ∧
         p.port_status &&& USB_PORT_STAT_SUSPEND = 0 then
        (0, userspace_needs_port_update
              (vhc.setPort (wIndex - 1)
                { p with port_status := p.port_status ||| USB_PORT_STAT_SUSPEND })
              wIndex)
      else (0, vhc)
    else if wValue = USB_PORT_FEAT_POWER then
      if p.port_status &&& USB_PORT_STAT_POWER = 0 then
        (0, userspace_needs_port_update
              (vhc.setPort (wIndex - 1)
                { p with port_status := p.port_status ||| USB_PORT_STAT_POWER })
              wIndex)
      else (0, vhc)
    else if wValue = USB_PORT_FEAT_RESET then
      if p.port_status &&& USB_PORT_STAT_CONNECTION ≠ 0 ∧
         p.port_status &&& USB_PORT_STAT_RESET = 0 then
        (0, userspace_needs_port_update
              (vhc.setPort (wIndex - 1)
                { p with
                    port_status :=
                      (p.port_status &&&
                        (USB_PORT_STAT_POWER ||| USB_PORT_STAT_CONNECTION |||
                         USB_PORT_STAT_LOW_SPEED ||| USB_PORT_STAT_HIGH_SPEED |||
                         USB_PORT_STAT_OVERCURRENT)) ||| USB_PORT_STAT_RESET,
                    port_flags := andn8 p.port_flags USB_VHCI_PORT_STAT_FLAG_RESUMING })
              wIndex)
      else (0, vhc)
    else if wValue = USB_PORT_FEAT_CONNECTION ∨ wValue = USB_PORT_FEAT_OVER_CURRENT ∨
            wValue = USB_PORT_FEAT_LOWSPEED ∨ wValue = USB_PORT_FEAT_HIGHSPEED ∨
            wValue = USB_PORT_FEAT_INDICATOR then
      (0, vhc)
    else if wValue = USB_PORT_FEAT_C_CONNECTION ∨ wValue = USB_PORT_FEAT_C_ENABLE ∨
            wValue = USB_PORT_FEAT_C_SUSPEND ∨ wValue = USB_PORT_FEAT_C_OVER_CURRENT ∨
            wValue = USB_PORT_FEAT_C_RESET then
      if p.port_change &&& (1 <<< (wValue - 16)) = 0 then
        (0, userspace_needs_port_update
              (vhc.setPort (wIndex - 1)
                { p with port_change := p.port_change ||| (1 <<< (wValue - 16)) })
              wIndex)
      else (0, vhc)
    else (-EPIPE, vhc)

/-- vhci_hub_control: the root-hub control request dispatcher.  The output
buffer writes of GetHubDescriptor/GetHubStatus/GetPortStatus are pure reads
and are not tracked; the trailing usb_hcd_poll_rh_status call is an
external signal.  Returns the retval (0 or -EPIPE) and the new state. -/
def vhci_hub_control (vhc : Vhci) (typeReq wValue wIndex wLength : Nat) :
    Int × Vhci :=
  if typeReq = ClearHubFeature ∨ typeReq = SetHubFeature then
    if wIndex ≠ 0 ∨ wLength ≠ 0 ∨
       (wValue ≠ C_HUB_LOCAL_POWER ∧ wValue ≠ C_HUB_OVER_CURRENT) then
      (-EPIPE, vhc)
    else (0, vhc)
  else if typeReq = ClearPortFeature then
    vhci_clear_port_feature vhc wValue wIndex wLength
  else if typeReq = GetHubDescriptor then
    if wIndex ≠ 0 then (-EPIPE, vhc) else (0, vhc)
  else if typeReq = GetHubStatus then
    if wValue ≠ 0 ∨ wIndex ≠ 0 ∨ wLength ≠ 4 then (-EPIPE, vhc) else (0, vhc)
  else if typeReq = GetPortStatus then
    if wValue ≠ 0 ∨ wIndex = 0 ∨ wIndex > vhc.port_count ∨ wLength ≠ 4 then
      (-EPIPE, vhc)
    else (0, vhc)
  else if typeReq = SetPortFeature then
    vhci_set_port_feature vhc wValue wIndex wLength
  else (-EPIPE, vhc)

/-- ioc_port_stat: a worker-driven port status/change report. -/
def ioc_port_stat (vhc : Vhci) (index status change : Nat) : Int × Vhci :=
  if index = 0 ∨ index > vhc.port_count then (-EINVAL, vhc)
  else if change ≠ USB_PORT_STAT_C_CONNECTION ∧ change ≠ USB_PORT_STAT_C_ENABLE ∧
          change ≠ USB_PORT_STAT_C_SUSPEND ∧ change ≠ USB_PORT_STAT_C_OVERCURRENT ∧
          change ≠ USB_PORT_STAT_C_RESET ∧
          change ≠ (USB_PORT_STAT_C_RESET ||| USB_PORT_STAT_C_ENABLE) then
    (-EINVAL, vhc)
  else
    let p := vhc.port (index - 1)
    if p.port_status &&& USB_PORT_STAT_POWER = 0 then (-EPROTO, vhc)
    else if change = USB_PORT_STAT_C_CONNECTION then
      let overcurrent := p.port_status &&& USB_PORT_STAT_OVERCURRENT
      let newStatus :=
        if status &&& USB_PORT_STAT_CONNECTION ≠ 0 then
          USB_PORT_STAT_POWER ||| USB_PORT_STAT_CONNECTION |||
          (if status &&& USB_PORT_STAT_LOW_SPEED ≠ 0 then USB_PORT_STAT_LOW_SPEED
           else if status &&& USB_PORT_STAT_HIGH_SPEED ≠ 0 then USB_PORT_STAT_HIGH_SPEED
           else 0) ||| overcurrent
        else USB_PORT_STAT_POWER ||| overcurrent
      (0, userspace_needs_port_update
            (vhc.setPort (index - 1)
              { p with
                  port_change := p.port_change ||| USB_PORT_STAT_C_CONNECTION,
                  port_status := newStatus,
                  port_flags := andn8 p.port_flags USB_VHCI_PORT_STAT_FLAG_RESUMING })
            index)
    else if change = USB_PORT_STAT_C_ENABLE then
      if p.port_status &&& USB_PORT_STAT_CONNECTION = 0 ∨
         p.port_status &&& USB_PORT_STAT_RESET ≠ 0 ∨
         status &&& USB_PORT_STAT_ENABLE ≠ 0 then (-EPROTO, vhc)
      else
        (0, userspace_needs_port_update
              (vhc.setPort (index - 1)
                { p with
                    port_change := p.port_change ||| USB_PORT_STAT_C_ENABLE,
                    port_status := andn16
                      (andn16 p.port_status USB_PORT_STAT_ENABLE) USB_PORT_STAT_SUSPEND,
                    port_flags := andn8 p.port_flags USB_VHCI_PORT_STAT_FLAG_RESUMING })
              index)
    else if change = USB_PORT_STAT_C_SUSPEND then
      if p.port_status &&& USB_PORT_STAT_CONNECTION = 0 ∨
         p.port_status &&& USB_PORT_STAT_ENABLE = 0 ∨
         p.port_status &&& USB_PORT_STAT_RESET ≠ 0 ∨
         status &&& USB_PORT_STAT_SUSPEND ≠ 0 then (-EPROTO, vhc)
      else
        (0, userspace_needs_port_update
              (vhc.setPort (index - 1)
                { p with
                    port_flags := andn8 p.port_flags USB_VHCI_PORT_STAT_FLAG_RESUMING,
                    port_change := p.port_change ||| USB_PORT_STAT_C_SUSPEND,
                    port_status := andn16 p.port_status USB_PORT_STAT_SUSPEND })
              index)
    else if change = USB_PORT_STAT_C_OVERCURRENT then
      (0, userspace_needs_port_update
            (vhc.setPort (index - 1)
              { p with
                  port_change := p.port_change ||| USB_PORT_STAT_C_OVERCURRENT,
                  port_status :=
                    (andn16 p.port_status USB_PORT_STAT_OVERCURRENT) |||
                    (status &&& USB_PORT_STAT_OVERCURRENT) })
            index)
    else
      -- USB_PORT_STAT_C_RESET, alone or together with USB_PORT_STAT_C_ENABLE
      if p.port_status &&& USB_PORT_STAT_CONNECTION = 0 ∨
         p.port_status &&& USB_PORT_STAT_RESET = 0 ∨
         status &&& USB_PORT_STAT_RESET ≠ 0 then (-EPROTO, vhc)
      else if change &&& USB_PORT_STAT_C_ENABLE ≠ 0 then
        if status &&& USB_PORT_STAT_ENABLE ≠ 0 then (-EPROTO, vhc)
        else
          (0, userspace_needs_port_update
                (vhc.setPort (index - 1)
                  { p with
                      port_change := (p.port_change ||| USB_PORT_STAT_C_ENABLE) |||
                        USB_PORT_STAT_C_RESET,
                      port_status := andn16 p.port_status USB_PORT_STAT_RESET })
                index)
      else
        (0, userspace_needs_port_update
              (vhc.setPort (index - 1)
                { p with
                    port_change := p.port_change ||| USB_PORT_STAT_C_RESET,
                    port_status := andn16
                      (p.port_status ||| (status &&& USB_PORT_STAT_ENABLE))
                      USB_PORT_STAT_RESET })
              index)

/-! ## Work dispatch (ioc_fetch_work) -/

/-- The unit of work ioc_fetch_work reports to the worker.  The remaining
descriptor fields of a PROCESS_URB report (device address, endpoint,
type, flags, interval, packet count) are verbatim field copies and are
not carried here. -/
inductive Work where
  | cancelUrb (handle : Nat)
  | portStat (index status change flags : Nat)
  | processUrb (handle : Nat) (buffer_length : Nat)
deriving Repr, DecidableEq

/-- has_work: the wait predicate of the fetch path. -/
def has_work (vhc : Vhci) : Bool :=
  vhc.port_update != 0 || !vhc.cancel.isEmpty || !vhc.inbox.isEmpty

/-- The validity check ioc_fetch_work applies to the head of the inbox
before handing it to the worker (the invalid_urb conditions, inline in
the source). -/
def fetch_urb_valid (urb : Urb) : Bool :=
  match urb.pipeType with
  | .control =>
    match urb.setup_packet with
    | none => false
    | some cmd =>
      decide (cmd.wLength ≤ urb.transfer_buffer_length) &&
      (if cmd.bmRequestType &&& 0x80 ≠ 0 then
         cmd.wLength != 0 && urb.has_buffer
       else
         !(cmd.wLength != 0 && !urb.has_buffer))
  | _ =>
    if urb.pipeIn then
      urb.transfer_buffer_length != 0 && urb.has_buffer
    else
      !(urb.transfer_buffer_length != 0 && !urb.has_buffer)

/-- The buffer_length field of a PROCESS_URB report: wLength for control
transfers, transfer_buffer_length otherwise. -/
def fetch_buffer_length (urb : Urb) : Nat :=
  match urb.pipeType with
  | .control => (urb.setup_packet.getD default).wLength
  | _ => urb.transfer_buffer_length

/-- The port-scan loop of ioc_fetch_work: the first _port in 0..count-1
(rotated by offset) whose 1-based pending-update bit is set. -/
def findPortUpdate (port_update offset count : Nat) : Option Nat :=
  ((List.range count).find?
    (fun i => port_update &&& (1 <<< (((i + offset) % count) + 1)) != 0)).map
   (fun i => (i + offset) % count)

/-- The inbox loop of ioc_fetch_work (label repeat): hand the first valid
urb to the worker, giving invalid ones back immediately with
maybe_set_status(-EPIPE); -ENODATA when the inbox runs out.  The list
argument is the inbox of the state argument. -/
def fetch_inbox : List VhciUrbPriv → Vhci → Int × Option Work × Vhci
  | [], vhc => (-ENODATA, none, vhc)
  | urbp :: rest, vhc =>
    if fetch_urb_valid urbp.urb then
      (0, some (Work.processUrb urbp.handle (fetch_buffer_length urbp.urb)),
       { vhc with inbox := rest, fetched := vhc.fetched ++ [urbp] })
    else
      let urbp2 := maybe_set_status urbp (-EPIPE)
      fetch_inbox rest
        { vhc with inbox := rest,
                   givebacks := vhc.givebacks ++
                     [{ handle := urbp2.handle, status := urbp2.status, urb := urbp2.urb }] }

/-- ioc_fetch_work, non-blocking form (timeout 0; a blocking caller
reaches the same dispatch once has_work holds): serve the cancel list
first, then a pending port update by round robin, then the inbox. -/
def ioc_fetch_work (vhc : Vhci) : Int × Option Work × Vhci :=
  if has_work vhc = false then (-ETIMEDOUT, none, vhc)
  else
    match vhc.cancel with
    | urbp :: rest =>
      (0, some (Work.cancelUrb urbp.handle),
       { vhc with cancel := rest, canceling := vhc.canceling ++ [urbp] })
    | [] =>
      if vhc.port_update ≠ 0 then
        let vhc :=
          if vhc.port_sched_offset ≥ vhc.port_count then
            { vhc with port_sched_offset := 0 }
          else vhc
        match findPortUpdate vhc.port_update vhc.port_sched_offset vhc.port_count with
        | some port =>
          let p := vhc.port port
          (0, some (Work.portStat (port + 1) p.port_status p.port_change p.port_flags),
           { vhc with port_update := andn32 vhc.port_update (1 <<< (port + 1)),
                      port_sched_offset := port + 1 })
        | none => fetch_inbox vhc.inbox vhc
      else fetch_inbox vhc.inbox vhc

/-! ## Completion delivery (ioc_giveback_common) -/

/-- is_urb_dir_in: for control transfers the direction bit of the setup
packet, otherwise the pipe direction. -/
def is_urb_dir_in (urb : Urb) : Bool :=
  if urb.pipeType = PipeType.control then
    ((urb.setup_packet.getD default).bmRequestType &&& 0x80) != 0
  else urb.pipeIn

/-- The validation ioc_giveback_common applies to the worker-supplied
completion data (conjunction of the negated error conditions, in source
order). -/
def giveback_args_ok (urb : Urb) (act iso_count : Int) (buf iso : Bool) : Bool :=
  let is_in := is_urb_dir_in urb
  let is_iso := urb.pipeType = PipeType.isochronous
  (if is_iso then
     !(is_in && act != (urb.transfer_buffer_length : Int)) &&
     (iso_count == (urb.number_of_packets : Int)) &&
     !(iso_count != 0 && !iso)
   else
     decide (act ≤ (urb.transfer_buffer_length : Int))) &&
  (if is_in then !(act != 0 && !buf) else !buf)

/-- The lookup ioc_giveback_common performs: first the fetched list, then
canceling, then cancel. -/
def ioc_giveback_find (vhc : Vhci) (handle : Nat) : Option (QueueId × VhciUrbPriv) :=
  match vhc.fetched.find? (fun u => u.handle == handle) with
  | some u => some (QueueId.fetched, u)
  | none =>
    match vhc.canceling.find? (fun u => u.handle == handle) with
    | some u => some (QueueId.canceling, u)
    | none =>
      match vhc.cancel.find? (fun u => u.handle == handle) with
      | some u => some (QueueId.cancel, u)
      | none => none

/-- The validation-and-finalize part of ioc_giveback_common once the urbp is
located (split out of the lookup for proof modularity): validate the
worker-supplied data in source order; on failure give the urb back without
the status write (done_with_errors); on success record actual_length and
error_count, run the compare-and-set with the supplied status and give the
urb back.  The user memory copies (copy_from_user, access_ok, the
per-packet iso results) are environment effects modelled as succeeding. -/
def ioc_giveback_body (vhc : Vhci) (q : QueueId) (urbp : VhciUrbPriv)
    (status act iso_count err_count : Int) (buf iso : Bool) : Int × Vhci :=
  let retval : Int := if q = QueueId.fetched then 0 else -ECANCELED
  let is_in := is_urb_dir_in urbp.urb
  let is_iso := urbp.urb.pipeType = PipeType.isochronous
  if is_iso ∧ is_in = true ∧ act ≠ (urbp.urb.transfer_buffer_length : Int) then
    (-ENOBUFS, vhci_urb_giveback vhc q urbp)
  else if is_iso ∧ iso_count ≠ (urbp.urb.number_of_packets : Int) then
    (-EINVAL, vhci_urb_giveback vhc q urbp)
  else if is_iso ∧ iso_count ≠ 0 ∧ iso = false then
    (-EINVAL, vhci_urb_giveback vhc q urbp)
  else if ¬ is_iso ∧ act > (urbp.urb.transfer_buffer_length : Int) then
    (if is_in then -ENOBUFS else -EINVAL, vhci_urb_giveback vhc q urbp)
  else if is_in = true ∧ act ≠ 0 ∧ buf = false then
    (-EINVAL, vhci_urb_giveback vhc q urbp)
  else if is_in = false ∧ buf = true then
    (-EINVAL, vhci_urb_giveback vhc q urbp)
  else
    let urbp :=
      { urbp with urb :=
          { urbp.urb with actual_length := act, error_count := err_count } }
    let urbp := maybe_set_status urbp status
    (retval, vhci_urb_giveback vhc q urbp)

/-- ioc_giveback_common: look the handle up in fetched, else canceling, else
cancel (retval -ECANCELED when it was in a cancel list); -ENOENT and no state
change when it is in none of them; otherwise validate and finalize. -/
def ioc_giveback_common (vhc : Vhci) (handle : Nat) (status act iso_count err_count : Int)
    (buf iso : Bool) : Int × Vhci :=
  match ioc_giveback_find vhc handle with
  | none => (-ENOENT, vhc)
  | some (q, urbp) => ioc_giveback_body vhc q urbp status act iso_count err_count buf iso

end VhciHcd

namespace VhciHcd

/-! ## Helper lemmas -/

theorem getD_set_self {α : Type} (l : List α) (i : Nat) (a d : α) (h : i < l.length) :
    (l.set i a).getD i d = a := by
  induction l generalizing i with
  | nil => simp at h
  | cons x xs ih =>
    cases i with
    | zero => rfl
    | succ n => exact ih n (by simpa using h)

theorem getD_set_ne {α : Type} (l : List α) (i j : Nat) (a d : α) (h : i ≠ j) :
    (l.set i a).getD j d = l.getD j d := by
  induction l generalizing i j with
  | nil => rfl
  | cons x xs ih =>
    cases i with
    | zero =>
      cases j with
      | zero => exact absurd rfl h
      | succ m => rfl
    | succ n =>
      cases j with
      | zero => rfl
      | succ m => exact ih n m (by omega)

theorem land_two_pow (x k : Nat) :
    x &&& (1 <<< k) = if x.testBit k then 1 <<< k else 0 := by
  apply Nat.eq_of_testBit_eq
  intro j
  rw [Nat.one_shiftLeft]
  by_cases hj : k = j
  · subst hj
    by_cases h : x.testBit k <;>
      simp [Nat.testBit_land, h, Nat.testBit_two_pow_self]
  · by_cases h : x.testBit k <;>
      simp [Nat.testBit_land, h, Nat.testBit_two_pow, hj]

theorem land_one_shiftLeft_ne_zero (x k : Nat) :
    x &&& (1 <<< k) ≠ 0 ↔ x.testBit k = true := by
  rw [land_two_pow]
  by_cases h : x.testBit k <;> simp [h, Nat.one_shiftLeft]

theorem testBit_andn16 (x m j : Nat) (hj : j < 16) :
    (andn16 x m).testBit j = (x.testBit j && !(m.testBit j)) := by
  have h16 : (0xffff : Nat) = 2 ^ 16 - 1 := by norm_num
  rw [andn16, h16, Nat.testBit_land, Nat.testBit_xor, Nat.testBit_two_pow_sub_one]
  simp [hj]

theorem testBit_andn8 (x m j : Nat) (hj : j < 8) :
    (andn8 x m).testBit j = (x.testBit j && !(m.testBit j)) := by
  have h8 : (0xff : Nat) = 2 ^ 8 - 1 := by norm_num
  rw [andn8, h8, Nat.testBit_land, Nat.testBit_xor, Nat.testBit_two_pow_sub_one]
  simp [hj]

theorem testBit_andn32 (x m j : Nat) (hj : j < 32) :
    (andn32 x m).testBit j = (x.testBit j && !(m.testBit j)) := by
  have h32 : (0xffffffff : Nat) = 2 ^ 32 - 1 := by norm_num
  rw [andn32, h32, Nat.testBit_land, Nat.testBit_xor, Nat.testBit_two_pow_sub_one]
  simp [hj]

/-- A controller fresh out of vhci_start with n zero-initialized ports. -/
def emptyVhci (n : Nat) : Vhci :=
  { ports := List.replicate n default
    port_sched_offset := 0
    port_update := 0
    inbox := []
    fetched := []
    cancel := []
    canceling := []
    givebacks := []
    work_event := 0 }

end VhciHcd

namespace VhciHcd

/-! ## Claim C3 — completion-status initialization and compare-and-set -/

/-- A well-formed bulk OUT transfer. -/
def c3_urb : Urb :=
  { pipeType := .bulk, pipeIn := false, setup_packet := none, has_buffer := true,
    transfer_buffer_length := 8, number_of_packets := 0, actual_length := 0,
    error_count := 0, unlinked := 0 }

/-- State after submitting c3_urb to a fresh one-port controller. -/
def c3_vhc1 : Vhci := (vhci_urb_enqueue (emptyVhci 1) 100 c3_urb).2

/-- State after the worker fetches the transfer. -/
def c3_vhc2 : Vhci := (ioc_fetch_work c3_vhc1).2.2

/-- Result of the worker delivering completion with supplied status -EPIPE. -/
def c3_fin : Int × Vhci := ioc_giveback_common c3_vhc2 100 (-EPIPE) 0 0 0 false false

/-- C3: the claim says the completion status is initialized to -EINPROGRESS at
submission so that the compare-and-set admits exactly one later write.  The
code disagrees: vhci_urb_enqueue allocates the urbp with kzalloc, leaving the
atomic status 0, so atomic_cmpxchg(&urbp->status, -EINPROGRESS, status) never
succeeds and the status the creator observes is 0 (SUCCESS) no matter what
the worker supplied.  Evaluate the code at the failing input: submit a bulk
OUT transfer, fetch it, give it back with supplied status -EPIPE — the status
after submission is 0 (not -EINPROGRESS), the compare-and-set is a no-op,
and the transfer is delivered with status 0 rather than -EPIPE. -/
theorem claim_C3_status_cas_init_bug :
    (c3_vhc1.inbox.getD 0 default).status = 0 ∧
    (0 : Int) ≠ -EINPROGRESS ∧
    maybe_set_status (c3_vhc1.inbox.getD 0 default) (-ECANCELED) =
      c3_vhc1.inbox.getD 0 default ∧
    c3_fin.1 = 0 ∧
    c3_fin.2.givebacks.map deliveredStatus = [0] ∧
    (0 : Int) ≠ -EPIPE := by decide

/-! ## Claim C9 — malformed pending transfers at work fetch -/

/-- A malformed control transfer: IN direction with wLength = 64 in the setup
packet, but no transfer buffer (transfer_buffer_length 0), so the fetch-time
check wLength > transfer_buffer_length fails it. -/
def c9_bad_urb : Urb :=
  { pipeType := .control, pipeIn := true,
    setup_packet := some
      { bmRequestType := 0x80, bRequest := 6, wValue := 0, wIndex := 0, wLength := 64 },
    has_buffer := false, transfer_buffer_length := 0, number_of_packets := 0,
    actual_length := 0, error_count := 0, unlinked := 0 }

/-- A well-formed bulk OUT transfer queued behind the malformed one. -/
def c9_good_urb : Urb :=
  { pipeType := .bulk, pipeIn := false, setup_packet := none, has_buffer := true,
    transfer_buffer_length := 4, number_of_packets := 0, actual_length := 0,
    error_count := 0, unlinked := 0 }

/-- Controller with the malformed transfer (handle 1) ahead of the valid one
(handle 2) in the inbox. -/
def c9_vhc : Vhci :=
  (vhci_urb_enqueue (vhci_urb_enqueue (emptyVhci 1) 1 c9_bad_urb).2 2 c9_good_urb).2

def c9_res : Int × Option Work × Vhci := ioc_fetch_work c9_vhc

/-- C9: the claim's dispatch behavior holds — the malformed transfer is
rejected at fetch, finalized immediately, never handed to the worker, and the
fetch continues with the next pending transfer — but the finalization status
the creator observes is 0 (SUCCESS), not the claimed -EPIPE: maybe_set_status
is invoked with -EPIPE, yet its compare-and-set never fires because the
status field was kzalloc-initialized to 0 instead of -EINPROGRESS (the same
slip as in C3).  Evaluation at the failing input: fetch on an inbox holding
the malformed urb (handle 1) then a valid one (handle 2). -/
theorem claim_C9_invalid_urb_rejected_status_bug :
    fetch_urb_valid c9_bad_urb = false ∧
    c9_res.1 = 0 ∧
    c9_res.2.1 = some (Work.processUrb 2 4) ∧
    c9_res.2.2.fetched.map (fun u => u.handle) = [2] ∧
    c9_res.2.2.inbox = [] ∧
    c9_res.2.2.givebacks.map (fun g => g.handle) = [1] ∧
    c9_res.2.2.givebacks.map deliveredStatus = [0] ∧
    (0 : Int) ≠ -EPIPE := by decide

end VhciHcd

namespace VhciHcd

/-! ## Claim C10 — ioc_port_stat error paths -/

/-- C10: a worker port-event report with a valid index and a valid change
mask on an unpowered port fails with -EPROTO and leaves the whole state
(ports, change words, flags, pending-update bitmask) untouched; a change
mask that is not one of the five single change bits or reset|enable fails
with -EINVAL before any state is touched. -/
theorem claim_C10_port_stat_errors (vhc : Vhci) (index status change : Nat) :
    (1 ≤ index → index ≤ vhc.port_count →
     (change = USB_PORT_STAT_C_CONNECTION ∨ change = USB_PORT_STAT_C_ENABLE ∨
      change = USB_PORT_STAT_C_SUSPEND ∨ change = USB_PORT_STAT_C_OVERCURRENT ∨
      change = USB_PORT_STAT_C_RESET ∨
      change = (USB_PORT_STAT_C_RESET ||| USB_PORT_STAT_C_ENABLE)) →
     (vhc.port (index - 1)).port_status &&& USB_PORT_STAT_POWER = 0 →
     ioc_port_stat vhc index status change = (-EPROTO, vhc)) ∧
    (¬ (change = USB_PORT_STAT_C_CONNECTION ∨ change = USB_PORT_STAT_C_ENABLE ∨
        change = USB_PORT_STAT_C_SUSPEND ∨ change = USB_PORT_STAT_C_OVERCURRENT ∨
        change = USB_PORT_STAT_C_RESET ∨
        change = (USB_PORT_STAT_C_RESET ||| USB_PORT_STAT_C_ENABLE)) →
     ioc_port_stat vhc index status change = (-EINVAL, vhc)) := by
  constructor
  · intro h1 h2 hch hpow
    simp only [ioc_port_stat]
    rw [if_neg (by omega)]
    rw [if_neg (by rcases hch with h | h | h | h | h | h <;> subst h <;> decide)]
    rw [if_pos hpow]
  · intro hch
    by_cases hidx : index = 0 ∨ index > vhc.port_count
    · simp only [ioc_port_stat]
      rw [if_pos hidx]
    · simp only [ioc_port_stat]
      push_neg at hch
      rw [if_neg hidx, if_pos hch]

/-- Witness: on a fresh 1-port controller (power off everywhere), a
connection report on port 1 fails -EPROTO; a change mask of 3 fails
-EINVAL. -/
theorem claim_C10_port_stat_errors_witness :
    ioc_port_stat (emptyVhci 1) 1 0 USB_PORT_STAT_C_CONNECTION =
      (-EPROTO, emptyVhci 1) ∧
    ioc_port_stat (emptyVhci 1) 1 0 3 = (-EINVAL, emptyVhci 1) :=
  ⟨(claim_C10_port_stat_errors (emptyVhci 1) 1 0 USB_PORT_STAT_C_CONNECTION).1
      (by decide) (by decide) (Or.inl rfl) (by decide),
   (claim_C10_port_stat_errors (emptyVhci 1) 1 0 3).2 (by decide)⟩

end VhciHcd

namespace VhciHcd

/-! ## Claim C8 — invalid hub-control requests stall -/

/-- The wValue codes the ClearPortFeature switch accepts (everything else
funnels to the protocol-stall default). -/
def allowedClearPortFeature : List Nat :=
  [USB_PORT_FEAT_SUSPEND, USB_PORT_FEAT_POWER, USB_PORT_FEAT_ENABLE,
   USB_PORT_FEAT_CONNECTION, USB_PORT_FEAT_OVER_CURRENT, USB_PORT_FEAT_RESET,
   USB_PORT_FEAT_LOWSPEED, USB_PORT_FEAT_HIGHSPEED, USB_PORT_FEAT_INDICATOR,
   USB_PORT_FEAT_C_CONNECTION, USB_PORT_FEAT_C_ENABLE, USB_PORT_FEAT_C_SUSPEND,
   USB_PORT_FEAT_C_OVER_CURRENT, USB_PORT_FEAT_C_RESET]

/-- The wValue codes the SetPortFeature switch accepts (ENABLE and TEST are
deliberately not among them). -/
def allowedSetPortFeature : List Nat :=
  [USB_PORT_FEAT_SUSPEND, USB_PORT_FEAT_POWER, USB_PORT_FEAT_RESET,
   USB_PORT_FEAT_CONNECTION, USB_PORT_FEAT_OVER_CURRENT,
   USB_PORT_FEAT_LOWSPEED, USB_PORT_FEAT_HIGHSPEED, USB_PORT_FEAT_INDICATOR,
   USB_PORT_FEAT_C_CONNECTION, USB_PORT_FEAT_C_ENABLE, USB_PORT_FEAT_C_SUSPEND,
   USB_PORT_FEAT_C_OVER_CURRENT, USB_PORT_FEAT_C_RESET]

/-- C8: every hub-control request outside the valid parameter domain —
unrecognized request type, out-of-range port index, non-zero wLength where
none is expected, wLength ≠ 4 on a status read, or a feature code the
request type does not allow — returns the single protocol-stall outcome
-EPIPE. -/
theorem claim_C8_hub_control_stall (vhc : Vhci) (typeReq wValue wIndex wLength : Nat) :
    (typeReq ≠ ClearHubFeature → typeReq ≠ SetHubFeature →
     typeReq ≠ ClearPortFeature → typeReq ≠ GetHubDescriptor →
     typeReq ≠ GetHubStatus → typeReq ≠ GetPortStatus → typeReq ≠ SetPortFeature →
     (vhci_hub_control vhc typeReq wValue wIndex wLength).1 = -EPIPE) ∧
    ((typeReq = ClearHubFeature ∨ typeReq = SetHubFeature) →
     (wIndex ≠ 0 ∨ wLength ≠ 0 ∨ (wValue ≠ C_HUB_LOCAL_POWER ∧ wValue ≠ C_HUB_OVER_CURRENT)) →
     (vhci_hub_control vhc typeReq wValue wIndex wLength).1 = -EPIPE) ∧
    (typeReq = ClearPortFeature →
     (wIndex = 0 ∨ wIndex > vhc.port_count ∨ wLength ≠ 0) →
     (vhci_hub_control vhc typeReq wValue wIndex wLength).1 = -EPIPE) ∧
    (typeReq = ClearPortFeature → wValue ∉ allowedClearPortFeature →
     (vhci_hub_control vhc typeReq wValue wIndex wLength).1 = -EPIPE) ∧
    (typeReq = GetHubDescriptor → wIndex ≠ 0 →
     (vhci_hub_control vhc typeReq wValue wIndex wLength).1 = -EPIPE) ∧
    (typeReq = GetHubStatus → (wValue ≠ 0 ∨ wIndex ≠ 0 ∨ wLength ≠ 4) →
     (vhci_hub_control vhc typeReq wValue wIndex wLength).1 = -EPIPE) ∧
    (typeReq = GetPortStatus →
     (wValue ≠ 0 ∨ wIndex = 0 ∨ wIndex > vhc.port_count ∨ wLength ≠ 4) →
     (vhci_hub_control vhc typeReq wValue wIndex wLength).1 = -EPIPE) ∧
    (typeReq = SetPortFeature →
     (wIndex = 0 ∨ wIndex > vhc.port_count ∨ wLength ≠ 0) →
     (vhci_hub_control vhc typeReq wValue wIndex wLength).1 = -EPIPE) ∧
    (typeReq = SetPortFeature → wValue ∉ allowedSetPortFeature →
     (vhci_hub_control vhc typeReq wValue wIndex wLength).1 = -EPIPE) := by
  refine ⟨?_, ?_, ?_, ?_, ?_, ?_, ?_, ?_, ?_⟩
  · intro h1 h2 h3 h4 h5 h6 h7
    simp only [vhci_hub_control]
    rw [if_neg (not_or.mpr ⟨h1, h2⟩), if_neg h3, if_neg h4, if_neg h5, if_neg h6,
        if_neg h7]
  · intro ht hbad
    simp only [vhci_hub_control]
    rw [if_pos ht, if_pos hbad]
  · intro ht hguard
    subst ht
    simp only [vhci_hub_control]
    rw [if_neg (by decide)]
    simp only [if_true, vhci_clear_port_feature]
    rw [if_pos hguard]
  · intro ht hv
    subst ht
    simp only [vhci_hub_control]
    rw [if_neg (by decide)]
    simp only [if_true, vhci_clear_port_feature]
    by_cases hguard : wIndex = 0 ∨ wIndex > vhc.port_count ∨ wLength ≠ 0
    · rw [if_pos hguard]
    · rw [if_neg hguard]
      have hsus : wValue ≠ USB_PORT_FEAT_SUSPEND := fun e => hv (by rw [e]; decide)
      have hpow : wValue ≠ USB_PORT_FEAT_POWER := fun e => hv (by rw [e]; decide)
      have hena : wValue ≠ USB_PORT_FEAT_ENABLE := fun e => hv (by rw [e]; decide)
      have hnoop : ¬ (wValue = USB_PORT_FEAT_CONNECTION ∨
          wValue = USB_PORT_FEAT_OVER_CURRENT ∨ wValue = USB_PORT_FEAT_RESET ∨
          wValue = USB_PORT_FEAT_LOWSPEED ∨ wValue = USB_PORT_FEAT_HIGHSPEED ∨
          wValue = USB_PORT_FEAT_INDICATOR) := by
        rintro (e | e | e | e | e | e) <;> exact hv (by rw [e]; decide)
      have hcl : ¬ (wValue = USB_PORT_FEAT_C_CONNECTION ∨
          wValue = USB_PORT_FEAT_C_ENABLE ∨ wValue = USB_PORT_FEAT_C_SUSPEND ∨
          wValue = USB_PORT_FEAT_C_OVER_CURRENT ∨ wValue = USB_PORT_FEAT_C_RESET) := by
        rintro (e | e | e | e | e) <;> exact hv (by rw [e]; decide)
      rw [if_neg hsus, if_neg hpow, if_neg hena, if_neg hnoop, if_neg hcl]
  · intro ht hi
    subst ht
    simp only [vhci_hub_control]
    rw [if_neg (by decide), if_neg (by decide)]
    simp only [if_true]
    rw [if_pos hi]
  · intro ht hbad
    subst ht
    simp only [vhci_hub_control]
    rw [if_neg (by decide), if_neg (by decide), if_neg (by decide)]
    simp only [if_true]
    rw [if_pos hbad]
  · intro ht hbad
    subst ht
    simp only [vhci_hub_control]
    rw [if_neg (by decide), if_neg (by decide), if_neg (by decide), if_neg (by decide)]
    simp only [if_true]
    rw [if_pos hbad]
  · intro ht hguard
    subst ht
    simp only [vhci_hub_control]
    rw [if_neg (by decide), if_neg (by decide), if_neg (by decide), if_neg (by decide),
        if_neg (by decide)]
    simp only [if_true, vhci_set_port_feature]
    rw [if_pos hguard]
  · intro ht hv
    subst ht
    simp only [vhci_hub_control]
    rw [if_neg (by decide), if_neg (by decide), if_neg (by decide), if_neg (by decide),
        if_neg (by decide)]
    simp only [if_true, vhci_set_port_feature]
    by_cases hguard : wIndex = 0 ∨ wIndex > vhc.port_count ∨ wLength ≠ 0
    · rw [if_pos hguard]
    · rw [if_neg hguard]
      have hsus : wValue ≠ USB_PORT_FEAT_SUSPEND := fun e => hv (by rw [e]; decide)
      have hpow : wValue ≠ USB_PORT_FEAT_POWER := fun e => hv (by rw [e]; decide)
      have hres : wValue ≠ USB_PORT_FEAT_RESET := fun e => hv (by rw [e]; decide)
      have hnoop : ¬ (wValue = USB_PORT_FEAT_CONNECTION ∨
          wValue = USB_PORT_FEAT_OVER_CURRENT ∨ wValue = USB_PORT_FEAT_LOWSPEED ∨
          wValue = USB_PORT_FEAT_HIGHSPEED ∨ wValue = USB_PORT_FEAT_INDICATOR) := by
        rintro (e | e | e | e | e) <;> exact hv (by rw [e]; decide)
      have hcl : ¬ (wValue = USB_PORT_FEAT_C_CONNECTION ∨
          wValue = USB_PORT_FEAT_C_ENABLE ∨ wValue = USB_PORT_FEAT_C_SUSPEND ∨
          wValue = USB_PORT_FEAT_C_OVER_CURRENT ∨ wValue = USB_PORT_FEAT_C_RESET) := by
        rintro (e | e | e | e | e) <;> exact hv (by rw [e]; decide)
      rw [if_neg hsus, if_neg hpow, if_neg hres, if_neg hnoop, if_neg hcl]

/-- Witness: an unrecognized request type, an out-of-range ClearPortFeature
port index, a SetPortFeature(ENABLE) (disallowed feature), and a
GetPortStatus with wLength 2 all stall on a 2-port controller. -/
theorem claim_C8_hub_control_stall_witness :
    (vhci_hub_control (emptyVhci 2) 0x1234 0 0 0).1 = -EPIPE ∧
    (vhci_hub_control (emptyVhci 2) ClearPortFeature USB_PORT_FEAT_SUSPEND 3 0).1 = -EPIPE ∧
    (vhci_hub_control (emptyVhci 2) SetPortFeature USB_PORT_FEAT_ENABLE 1 0).1 = -EPIPE ∧
    (vhci_hub_control (emptyVhci 2) GetPortStatus 0 1 2).1 = -EPIPE :=
  ⟨(claim_C8_hub_control_stall (emptyVhci 2) 0x1234 0 0 0).1
      (by decide) (by decide) (by decide) (by decide) (by decide) (by decide) (by decide),
   (claim_C8_hub_control_stall (emptyVhci 2) ClearPortFeature USB_PORT_FEAT_SUSPEND 3 0).2.2.1
      rfl (by decide),
   (claim_C8_hub_control_stall (emptyVhci 2) SetPortFeature USB_PORT_FEAT_ENABLE 1 0).2.2.2.2.2.2.2.2
      rfl (by decide),
   (claim_C8_hub_control_stall (emptyVhci 2) GetPortStatus 0 1 2).2.2.2.2.2.2.1
      rfl (by decide)⟩

end VhciHcd

namespace VhciHcd

/-! ## Port-table projection lemmas -/

@[simp] theorem port_userspace_needs_port_update (vhc : Vhci) (w i : Nat) :
    (userspace_needs_port_update vhc w).port i = vhc.port i := rfl

theorem port_setPort_self (vhc : Vhci) (k : Nat) (p : VhciPort)
    (h : k < vhc.ports.length) : (vhc.setPort k p).port k = p := by
  simp only [Vhci.setPort, Vhci.port]
  exact getD_set_self vhc.ports k p default h

theorem port_setPort_ne (vhc : Vhci) (k i : Nat) (p : VhciPort) (h : k ≠ i) :
    (vhc.setPort k p).port i = vhc.port i := by
  simp only [Vhci.setPort, Vhci.port]
  exact getD_set_ne vhc.ports k i p default h

@[simp] theorem port_update_userspace (vhc : Vhci) (w : Nat) :
    (userspace_needs_port_update vhc w).port_update = vhc.port_update ||| (1 <<< w) := rfl

@[simp] theorem port_update_setPort (vhc : Vhci) (k : Nat) (p : VhciPort) :
    (vhc.setPort k p).port_update = vhc.port_update := rfl

/-! ## Claim C7 — SetPortFeature(RESET) -/

/-- C7 (amended): resetting a connected, not-already-resetting port keeps
exactly the power/connection/speed/overcurrent status bits plus the reset
bit, clears the private resuming flag, sets the port's pending-update bit —
and leaves the change word untouched (the reset change bit is not set here;
the worker's later reset-completion report sets it); on a port that is not
connected or already resetting the state is unchanged. -/
theorem claim_C7_set_port_feature_reset (vhc : Vhci) (wIndex : Nat)
    (h1 : 1 ≤ wIndex) (h2 : wIndex ≤ vhc.port_count) :
    ((vhc.port (wIndex - 1)).port_status &&& USB_PORT_STAT_CONNECTION ≠ 0 →
     (vhc.port (wIndex - 1)).port_status &&& USB_PORT_STAT_RESET = 0 →
     vhci_hub_control vhc SetPortFeature USB_PORT_FEAT_RESET wIndex 0 =
       (0, userspace_needs_port_update
             (vhc.setPort (wIndex - 1)
               { port_status :=
                   ((vhc.port (wIndex - 1)).port_status &&&
                     (USB_PORT_STAT_POWER ||| USB_PORT_STAT_CONNECTION |||
                      USB_PORT_STAT_LOW_SPEED ||| USB_PORT_STAT_HIGH_SPEED |||
                      USB_PORT_STAT_OVERCURRENT)) ||| USB_PORT_STAT_RESET,
                 port_change := (vhc.port (wIndex - 1)).port_change,
                 port_flags :=
                   andn8 (vhc.port (wIndex - 1)).port_flags
                     USB_VHCI_PORT_STAT_FLAG_RESUMING })
             wIndex) ∧
     ((vhci_hub_control vhc SetPortFeature USB_PORT_FEAT_RESET wIndex 0).2.port
        (wIndex - 1)).port_change = (vhc.port (wIndex - 1)).port_change ∧
     (vhci_hub_control vhc SetPortFeature USB_PORT_FEAT_RESET wIndex 0).2.port_update.testBit
        wIndex = true) ∧
    (¬ ((vhc.port (wIndex - 1)).port_status &&& USB_PORT_STAT_CONNECTION ≠ 0 ∧
        (vhc.port (wIndex - 1)).port_status &&& USB_PORT_STAT_RESET = 0) →
     vhci_hub_control vhc SetPortFeature USB_PORT_FEAT_RESET wIndex 0 = (0, vhc)) := by
  have hlen : wIndex - 1 < vhc.ports.length := by
    simp only [Vhci.port_count] at h2; omega
  constructor
  · intro hconn hreset
    have hmain : vhci_hub_control vhc SetPortFeature USB_PORT_FEAT_RESET wIndex 0 =
        (0, userspace_needs_port_update
              (vhc.setPort (wIndex - 1)
                { port_status :=
                    ((vhc.port (wIndex - 1)).port_status &&&
                      (USB_PORT_STAT_POWER ||| USB_PORT_STAT_CONNECTION |||
                       USB_PORT_STAT_LOW_SPEED ||| USB_PORT_STAT_HIGH_SPEED |||
                       USB_PORT_STAT_OVERCURRENT)) ||| USB_PORT_STAT_RESET,
                  port_change := (vhc.port (wIndex - 1)).port_change,
                  port_flags :=
                    andn8 (vhc.port (wIndex - 1)).port_flags
                      USB_VHCI_PORT_STAT_FLAG_RESUMING })
              wIndex) := by
      simp only [vhci_hub_control]
      rw [if_neg (by decide), if_neg (by decide), if_neg (by decide), if_neg (by decide),
          if_neg (by decide)]
      simp only [if_true, vhci_set_port_feature]
      rw [if_neg (by omega), if_neg (by decide), if_neg (by decide),
          if_pos ⟨hconn, hreset⟩]
    refine ⟨hmain, ?_, ?_⟩
    · rw [hmain]
      simp only [port_userspace_needs_port_update]
      rw [port_setPort_self _ _ _ hlen]
    · rw [hmain]
      simp only [port_update_userspace, port_update_setPort]
      simp [Nat.testBit_lor, Nat.one_shiftLeft, Nat.testBit_two_pow_self]
  · intro hno
    simp only [vhci_hub_control]
    rw [if_neg (by decide), if_neg (by decide), if_neg (by decide), if_neg (by decide),
        if_neg (by decide)]
    simp only [if_true, vhci_set_port_feature]
    rw [if_neg (by omega), if_neg (by decide), if_neg (by decide), if_neg hno]

/-- The spec scenario state: 4 ports, port 3 (1-based) powered and connected,
nothing else set. -/
def c7_vhc : Vhci :=
  { emptyVhci 4 with
      ports := [default, default,
        { port_status := USB_PORT_STAT_POWER ||| USB_PORT_STAT_CONNECTION,
          port_change := 0, port_flags := 0 }, default] }

def c7_res : Int × Vhci := vhci_hub_control c7_vhc SetPortFeature USB_PORT_FEAT_RESET 3 0

/-- C7 counterexample: SetPortFeature(RESET) on connected, not-resetting
port 3 of 4 produces status {power, connection, reset}, clears resuming and
marks the port pending — but the reset change bit (bit 4 of the change word)
stays clear, so the claim's assertion that the reset change bit is set is
false on the code. -/
theorem claim_C7_counterexample :
    c7_res.1 = 0 ∧
    (c7_res.2.port 2).port_status =
      (USB_PORT_STAT_POWER ||| USB_PORT_STAT_CONNECTION ||| USB_PORT_STAT_RESET) ∧
    c7_res.2.port_update.testBit 3 = true ∧
    (c7_res.2.port 2).port_change.testBit 4 = false ∧
    (c7_res.2.port 2).port_change = 0 := by decide

/-- Witness for the amended theorem at the scenario state. -/
theorem claim_C7_set_port_feature_reset_witness :
    ((vhci_hub_control c7_vhc SetPortFeature USB_PORT_FEAT_RESET 3 0).2.port 2).port_change
      = (c7_vhc.port 2).port_change ∧
    (vhci_hub_control c7_vhc SetPortFeature USB_PORT_FEAT_RESET 3 0).2.port_update.testBit 3
      = true :=
  ⟨((claim_C7_set_port_feature_reset c7_vhc 3 (by decide) (by decide)).1
      (by decide) (by decide)).2.1,
   ((claim_C7_set_port_feature_reset c7_vhc 3 (by decide) (by decide)).1
      (by decide) (by decide)).2.2⟩

end VhciHcd

namespace VhciHcd

/-! ## Claim C5 — change-bit persistence across hub-control requests -/

/-- One powered port with a latched reset-change bit. -/
def c5_vhc : Vhci :=
  { emptyVhci 1 with
      ports := [{ port_status := USB_PORT_STAT_POWER,
                  port_change := USB_PORT_STAT_C_RESET, port_flags := 0 }] }

/-- C5 counterexample: the reset-change bit (bit 4) is set, and a
ClearPortFeature(POWER) — a power-off, not an acknowledgment of any change
bit — clears it as a side effect (the code keeps only the overcurrent-change
bit on power-off), so a change bit does not always survive until its explicit
acknowledgment. -/
theorem claim_C5_counterexample :
    (c5_vhc.port 0).port_change.testBit 4 = true ∧
    USB_PORT_FEAT_POWER ≠ 16 + 4 ∧
    (vhci_hub_control c5_vhc ClearPortFeature USB_PORT_FEAT_POWER 1 0).1 = 0 ∧
    ((vhci_hub_control c5_vhc ClearPortFeature USB_PORT_FEAT_POWER 1 0).2.port 0).port_change.testBit 4
      = false := by decide

set_option maxHeartbeats 1000000 in
/-- ClearPortFeature preserves a latched change bit except for the three
clearing transitions (acknowledgment, power-off, disable). -/
theorem clear_port_feature_change_bit (vhc : Vhci) (wValue wIndex wLength i j : Nat)
    (hj : j < 5)
    (hset : ((vhc.port i).port_change).testBit j = true)
    (hnot : ¬ (wIndex = i + 1 ∧
        ((wValue = USB_PORT_FEAT_POWER ∧ j ≠ 3) ∨
         (wValue = USB_PORT_FEAT_ENABLE ∧ (j = 1 ∨ j = 2)) ∨
         wValue = 16 + j))) :
    (((vhci_clear_port_feature vhc wValue wIndex wLength).2).port i).port_change.testBit j
      = true := by
  simp only [vhci_clear_port_feature]
  by_cases hguard : wIndex = 0 ∨ wIndex > vhc.port_count ∨ wLength ≠ 0
  · rw [if_pos hguard]; exact hset
  rw [if_neg hguard]
  push_neg at hguard
  obtain ⟨hne0, hle, -⟩ := hguard
  have hlen : wIndex - 1 < vhc.ports.length := by
    simp only [Vhci.port_count] at hle; omega
  by_cases hv1 : wValue = USB_PORT_FEAT_SUSPEND
  · rw [if_pos hv1]
    split
    · by_cases hik : wIndex - 1 = i
      · subst hik
        simp only [port_userspace_needs_port_update]
        rw [port_setPort_self _ _ _ hlen]
        exact hset
      · simp only [port_userspace_needs_port_update]
        rw [port_setPort_ne _ _ _ _ hik]
        exact hset
    · exact hset
  rw [if_neg hv1]
  by_cases hv2 : wValue = USB_PORT_FEAT_POWER
  · rw [if_pos hv2]
    split
    · by_cases hik : wIndex - 1 = i
      · subst hik
        have hw : wIndex = (wIndex - 1) + 1 :=
          (Nat.succ_pred_eq_of_pos (Nat.pos_of_ne_zero hne0)).symm
        have hj3 : j = 3 := by
          by_contra hj3
          exact hnot ⟨hw, Or.inl ⟨hv2, hj3⟩⟩
        subst hj3
        simp only [port_userspace_needs_port_update]
        rw [port_setPort_self _ _ _ hlen]
        have hoc : USB_PORT_STAT_C_OVERCURRENT.testBit 3 = true := by decide
        simp only [Nat.testBit_land, hoc, Bool.and_true]
        exact hset
      · simp only [port_userspace_needs_port_update]
        rw [port_setPort_ne _ _ _ _ hik]
        exact hset
    · exact hset
  rw [if_neg hv2]
  by_cases hv3 : wValue = USB_PORT_FEAT_ENABLE
  · rw [if_pos hv3]
    split
    · by_cases hik : wIndex - 1 = i
      · subst hik
        have hw : wIndex = (wIndex - 1) + 1 :=
          (Nat.succ_pred_eq_of_pos (Nat.pos_of_ne_zero hne0)).symm
        have hj12 : ¬ (j = 1 ∨ j = 2) := fun e =>
          hnot ⟨hw, Or.inr (Or.inl ⟨hv3, e⟩)⟩
        simp only [port_userspace_needs_port_update]
        rw [port_setPort_self _ _ _ hlen]
        rw [testBit_andn16 _ _ _ (Nat.lt_of_lt_of_le hj (by decide))]
        have hmask : (USB_PORT_STAT_C_ENABLE ||| USB_PORT_STAT_C_SUSPEND).testBit j
            = false := by
          interval_cases j <;> first | decide | omega
        simp [hset, hmask]
      · simp only [port_userspace_needs_port_update]
        rw [port_setPort_ne _ _ _ _ hik]
        exact hset
    · exact hset
  rw [if_neg hv3]
  by_cases hv4 : wValue = USB_PORT_FEAT_CONNECTION ∨ wValue = USB_PORT_FEAT_OVER_CURRENT ∨
      wValue = USB_PORT_FEAT_RESET ∨ wValue = USB_PORT_FEAT_LOWSPEED ∨
      wValue = USB_PORT_FEAT_HIGHSPEED ∨ wValue = USB_PORT_FEAT_INDICATOR
  · rw [if_pos hv4]; exact hset
  rw [if_neg hv4]
  by_cases hv5 : wValue = USB_PORT_FEAT_C_CONNECTION ∨ wValue = USB_PORT_FEAT_C_ENABLE ∨
      wValue = USB_PORT_FEAT_C_SUSPEND ∨ wValue = USB_PORT_FEAT_C_OVER_CURRENT ∨
      wValue = USB_PORT_FEAT_C_RESET
  · rw [if_pos hv5]
    split
    · by_cases hik : wIndex - 1 = i
      · subst hik
        have hw : wIndex = (wIndex - 1) + 1 :=
          (Nat.succ_pred_eq_of_pos (Nat.pos_of_ne_zero hne0)).symm
        have hack : wValue ≠ 16 + j := fun e =>
          hnot ⟨hw, Or.inr (Or.inr e)⟩
        have h16 : 16 ≤ wValue := by
          rcases hv5 with e | e | e | e | e <;> subst e <;> decide
        have hdiff : wValue - 16 ≠ j := fun e =>
          hack (by rw [Nat.add_comm 16 j]; exact (Nat.sub_eq_iff_eq_add h16).mp e)
        simp only [port_userspace_needs_port_update]
        rw [port_setPort_self _ _ _ hlen]
        rw [testBit_andn16 _ _ _ (Nat.lt_of_lt_of_le hj (by decide))]
        rw [Nat.one_shiftLeft, Nat.testBit_two_pow]
        simp [hset, hdiff]
      · simp only [port_userspace_needs_port_update]
        rw [port_setPort_ne _ _ _ _ hik]
        exact hset
    · exact hset
  rw [if_neg hv5]
  exact hset

set_option maxHeartbeats 1000000 in
/-- SetPortFeature never clears a change bit: its only change-word write is
an OR of the acknowledgment bit being raised. -/
theorem set_port_feature_change_bit (vhc : Vhci) (wValue wIndex wLength i j : Nat)
    (hset : ((vhc.port i).port_change).testBit j = true) :
    (((vhci_set_port_feature vhc wValue wIndex wLength).2).port i).port_change.testBit j
      = true := by
  simp only [vhci_set_port_feature]
  by_cases hguard : wIndex = 0 ∨ wIndex > vhc.port_count ∨ wLength ≠ 0
  · rw [if_pos hguard]; exact hset
  rw [if_neg hguard]
  push_neg at hguard
  obtain ⟨hne0, hle, -⟩ := hguard
  have hlen : wIndex - 1 < vhc.ports.length := by
    simp only [Vhci.port_count] at hle; omega
  by_cases hv1 : wValue = USB_PORT_FEAT_SUSPEND
  · rw [if_pos hv1]
    split
    · by_cases hik : wIndex - 1 = i
      · subst hik
        simp only [port_userspace_needs_port_update]
        rw [port_setPort_self _ _ _ hlen]
        exact hset
      · simp only [port_userspace_needs_port_update]
        rw [port_setPort_ne _ _ _ _ hik]
        exact hset
    · exact hset
  rw [if_neg hv1]
  by_cases hv2 : wValue = USB_PORT_FEAT_POWER
  · rw [if_pos hv2]
    split
    · by_cases hik : wIndex - 1 = i
      · subst hik
        simp only [port_userspace_needs_port_update]
        rw [port_setPort_self _ _ _ hlen]
        exact hset
      · simp only [port_userspace_needs_port_update]
        rw [port_setPort_ne _ _ _ _ hik]
        exact hset
    · exact hset
  rw [if_neg hv2]
  by_cases hv3 : wValue = USB_PORT_FEAT_RESET
  · rw [if_pos hv3]
    split
    · by_cases hik : wIndex - 1 = i
      · subst hik
        simp only [port_userspace_needs_port_update]
        rw [port_setPort_self _ _ _ hlen]
        exact hset
      · simp only [port_userspace_needs_port_update]
        rw [port_setPort_ne _ _ _ _ hik]
        exact hset
    · exact hset
  rw [if_neg hv3]
  by_cases hv4 : wValue = USB_PORT_FEAT_CONNECTION ∨ wValue = USB_PORT_FEAT_OVER_CURRENT ∨
      wValue = USB_PORT_FEAT_LOWSPEED ∨ wValue = USB_PORT_FEAT_HIGHSPEED ∨
      wValue = USB_PORT_FEAT_INDICATOR
  · rw [if_pos hv4]; exact hset
  rw [if_neg hv4]
  by_cases hv5 : wValue = USB_PORT_FEAT_C_CONNECTION ∨ wValue = USB_PORT_FEAT_C_ENABLE ∨
      wValue = USB_PORT_FEAT_C_SUSPEND ∨ wValue = USB_PORT_FEAT_C_OVER_CURRENT ∨
      wValue = USB_PORT_FEAT_C_RESET
  · rw [if_pos hv5]
    split
    · by_cases hik : wIndex - 1 = i
      · subst hik
        simp only [port_userspace_needs_port_update]
        rw [port_setPort_self _ _ _ hlen]
        simp [Nat.testBit_lor, hset]
      · simp only [port_userspace_needs_port_update]
        rw [port_setPort_ne _ _ _ _ hik]
        exact hset
    · exact hset
  rw [if_neg hv5]
  exact hset

/-- C5 (amended): a latched change bit (bit j < 5 of a port's change word)
survives every hub-control request except the three ClearPortFeature
transitions that clear it: the corresponding explicit acknowledgment
(wValue = 16 + j), a power-off (ClearPortFeature(POWER), which keeps only
the overcurrent-change bit, j = 3), and a disable (ClearPortFeature(ENABLE),
which clears the enable- and suspend-change bits j = 1, 2). -/
theorem claim_C5_change_bit_persistence (vhc : Vhci)
    (typeReq wValue wIndex wLength i j : Nat) (hj : j < 5)
    (hset : ((vhc.port i).port_change).testBit j = true)
    (hnot : ¬ (typeReq = ClearPortFeature ∧ wIndex = i + 1 ∧
        ((wValue = USB_PORT_FEAT_POWER ∧ j ≠ 3) ∨
         (wValue = USB_PORT_FEAT_ENABLE ∧ (j = 1 ∨ j = 2)) ∨
         wValue = 16 + j))) :
    (((vhci_hub_control vhc typeReq wValue wIndex wLength).2).port i).port_change.testBit j
      = true := by
  simp only [vhci_hub_control]
  by_cases h1 : typeReq = ClearHubFeature ∨ typeReq = SetHubFeature
  · rw [if_pos h1]
    split <;> exact hset
  rw [if_neg h1]
  by_cases h2 : typeReq = ClearPortFeature
  · rw [if_pos h2]
    exact clear_port_feature_change_bit vhc wValue wIndex wLength i j hj hset
      (fun hrest => hnot ⟨h2, hrest⟩)
  rw [if_neg h2]
  by_cases h3 : typeReq = GetHubDescriptor
  · rw [if_pos h3]
    split <;> exact hset
  rw [if_neg h3]
  by_cases h4 : typeReq = GetHubStatus
  · rw [if_pos h4]
    split <;> exact hset
  rw [if_neg h4]
  by_cases h5 : typeReq = GetPortStatus
  · rw [if_pos h5]
    split <;> exact hset
  rw [if_neg h5]
  by_cases h6 : typeReq = SetPortFeature
  · rw [if_pos h6]
    exact set_port_feature_change_bit vhc wValue wIndex wLength i j hset
  rw [if_neg h6]
  exact hset

/-- Witness for the amended persistence theorem: a GetPortStatus read and a
SetPortFeature(SUSPEND) both leave the latched reset-change bit set. -/
theorem claim_C5_change_bit_persistence_witness :
    ((vhci_hub_control c5_vhc GetPortStatus 0 1 4).2.port 0).port_change.testBit 4 = true ∧
    ((vhci_hub_control c5_vhc ClearPortFeature USB_PORT_FEAT_C_CONNECTION 1 0).2.port 0).port_change.testBit 4 = true :=
  ⟨claim_C5_change_bit_persistence c5_vhc GetPortStatus 0 1 4 0 4
      (by decide) (by decide) (by decide),
   claim_C5_change_bit_persistence c5_vhc ClearPortFeature USB_PORT_FEAT_C_CONNECTION 1 0 0 4
      (by decide) (by decide) (by decide)⟩

end VhciHcd

namespace VhciHcd

/-! ## Claim C4 — vhci_urb_dequeue (cancel) paths -/

/-- C4: a cancel on a handle found in the inbox gives the transfer back at
once (one new give-back whose delivered status is Canceled, the entry gone
from the inbox); on a handle found in fetched it moves the transfer to the
cancel list, signals the dispatcher's wait condition and defers finalization
(no new give-back); on a handle found in no queue it is a no-op that reports
the not-found condition (-EIDRM from the modelled usb_hcd_check_unlink_urb)
and changes nothing. -/
theorem claim_C4_cancel_paths (vhc : Vhci) (handle : Nat) :
    (∀ urbp, vhc.inbox.find? (fun u => u.handle == handle) = some urbp →
      vhci_urb_dequeue vhc handle (-ECANCELED) =
        (0, vhci_urb_giveback vhc QueueId.inbox
              { urbp with urb := { urbp.urb with unlinked := -ECANCELED } }) ∧
      (vhci_urb_dequeue vhc handle (-ECANCELED)).2.givebacks =
        vhc.givebacks ++
          [{ handle := urbp.handle, status := urbp.status,
             urb := { urbp.urb with unlinked := -ECANCELED } }] ∧
      deliveredStatus
        { handle := urbp.handle, status := urbp.status,
          urb := { urbp.urb with unlinked := -ECANCELED } } = -ECANCELED) ∧
    (vhc.inbox.find? (fun u => u.handle == handle) = none →
     ∀ urbp, vhc.fetched.find? (fun u => u.handle == handle) = some urbp →
      vhci_urb_dequeue vhc handle (-ECANCELED) =
        (0, trigger_work_event
              { vhc with
                  fetched := removeFirst vhc.fetched handle,
                  cancel := vhc.cancel ++
                    [{ urbp with urb := { urbp.urb with unlinked := -ECANCELED } }] }) ∧
      (vhci_urb_dequeue vhc handle (-ECANCELED)).2.givebacks = vhc.givebacks ∧
      (vhci_urb_dequeue vhc handle (-ECANCELED)).2.work_event = vhc.work_event + 1) ∧
    (vhc.inbox.find? (fun u => u.handle == handle) = none →
     vhc.fetched.find? (fun u => u.handle == handle) = none →
     vhc.cancel.find? (fun u => u.handle == handle) = none →
     vhc.canceling.find? (fun u => u.handle == handle) = none →
     vhci_urb_dequeue vhc handle (-ECANCELED) = (-EIDRM, vhc)) := by
  have hnz : (-ECANCELED : Int) ≠ 0 := by decide
  refine ⟨?_, ?_, ?_⟩
  · intro urbp h
    refine ⟨?_, ?_, ?_⟩
    · simp only [vhci_urb_dequeue, h]
    · simp only [vhci_urb_dequeue, h, vhci_urb_giveback, delFromQueue]
    · simp [deliveredStatus, hnz]
  · intro hnone urbp h
    refine ⟨?_, ?_, ?_⟩
    · simp only [vhci_urb_dequeue, hnone, h]
    · simp only [vhci_urb_dequeue, hnone, h, trigger_work_event]
    · simp only [vhci_urb_dequeue, hnone, h, trigger_work_event]
  · intro h1 h2 h3 h4
    simp only [vhci_urb_dequeue, h1, h2, h3, h4, Option.isSome_none]
    simp

/-- A well-formed bulk OUT transfer for the C4 scenario. -/
def c4_urb : Urb :=
  { pipeType := .bulk, pipeIn := false, setup_packet := none, has_buffer := true,
    transfer_buffer_length := 8, number_of_packets := 0, actual_length := 0,
    error_count := 0, unlinked := 0 }

/-- A 1-port controller with one submitted transfer (handle 7) in the inbox. -/
def c4_vhc : Vhci := (vhci_urb_enqueue (emptyVhci 1) 7 c4_urb).2

/-- Witness: canceling handle 7 finalizes it at once with delivered status
Canceled; canceling an unknown handle 99 is a no-op reporting -EIDRM. -/
theorem claim_C4_cancel_paths_witness :
    (vhci_urb_dequeue c4_vhc 7 (-ECANCELED)).2.givebacks.map deliveredStatus =
      [-ECANCELED] ∧
    vhci_urb_dequeue c4_vhc 99 (-ECANCELED) = (-EIDRM, c4_vhc) := by
  have h1 :=
    (claim_C4_cancel_paths c4_vhc 7).1
      { handle := 7, urb := c4_urb, status := 0 } (by decide)
  have h2 :=
    (claim_C4_cancel_paths c4_vhc 99).2.2 (by decide) (by decide) (by decide) (by decide)
  refine ⟨?_, h2⟩
  rw [h1.2.1]
  simp only [c4_vhc, vhci_urb_enqueue, c4_urb]
  decide

end VhciHcd

namespace VhciHcd

/-- When the supplied completion data passes validation, the located urb is
finalized: actual_length and error_count are recorded, the status goes
through the compare-and-set, and the urb is given back; the retval is 0 for
a urb from fetched and -ECANCELED for one from a cancel list. -/
theorem ioc_giveback_body_ok (vhc : Vhci) (q : QueueId) (urbp : VhciUrbPriv)
    (status act iso_count err_count : Int) (buf iso : Bool)
    (hok : giveback_args_ok urbp.urb act iso_count buf iso = true) :
    ioc_giveback_body vhc q urbp status act iso_count err_count buf iso =
      ((if q = QueueId.fetched then (0 : Int) else -ECANCELED),
       vhci_urb_giveback vhc q
         (maybe_set_status
           { urbp with urb :=
               { urbp.urb with actual_length := act, error_count := err_count } }
           status)) := by
  simp only [giveback_args_ok] at hok
  obtain ⟨hfst, hsnd⟩ := Bool.and_eq_true_iff.mp hok
  have hc1 : ¬ (urbp.urb.pipeType = PipeType.isochronous ∧
      is_urb_dir_in urbp.urb = true ∧
      act ≠ (urbp.urb.transfer_buffer_length : Int)) := by
    rintro ⟨his, hin, hne⟩
    rw [if_pos his] at hfst
    have hX := (Bool.and_eq_true_iff.mp (Bool.and_eq_true_iff.mp hfst).1).1
    rw [hin, bne_iff_ne.mpr hne] at hX
    simp at hX
  have hc2 : ¬ (urbp.urb.pipeType = PipeType.isochronous ∧
      iso_count ≠ (urbp.urb.number_of_packets : Int)) := by
    rintro ⟨his, hne⟩
    rw [if_pos his] at hfst
    exact hne (beq_iff_eq.mp (Bool.and_eq_true_iff.mp (Bool.and_eq_true_iff.mp hfst).1).2)
  have hc3 : ¬ (urbp.urb.pipeType = PipeType.isochronous ∧
      iso_count ≠ 0 ∧ iso = false) := by
    rintro ⟨his, hne, hisof⟩
    rw [if_pos his] at hfst
    have hZ := (Bool.and_eq_true_iff.mp hfst).2
    rw [bne_iff_ne.mpr hne, hisof] at hZ
    simp at hZ
  have hc4 : ¬ (¬ urbp.urb.pipeType = PipeType.isochronous ∧
      act > (urbp.urb.transfer_buffer_length : Int)) := by
    rintro ⟨hni, hgt⟩
    rw [if_neg hni] at hfst
    exact absurd (of_decide_eq_true hfst) (not_le.mpr hgt)
  have hc5 : ¬ (is_urb_dir_in urbp.urb = true ∧ act ≠ 0 ∧ buf = false) := by
    rintro ⟨hin, hne, hbf⟩
    rw [if_pos hin] at hsnd
    rw [bne_iff_ne.mpr hne, hbf] at hsnd
    simp at hsnd
  have hc6 : ¬ (is_urb_dir_in urbp.urb = false ∧ buf = true) := by
    rintro ⟨hinf, hbt⟩
    rw [if_neg (by rw [hinf]; exact Bool.false_ne_true)] at hsnd
    rw [hbt] at hsnd
    simp at hsnd
  simp only [ioc_giveback_body]
  rw [if_neg hc1, if_neg hc2, if_neg hc3, if_neg hc4, if_neg hc5, if_neg hc6]

end VhciHcd

namespace VhciHcd

/-! ## Claim C2 — deliver_completion lookup order and cancellation-wins -/

/-- C2: ioc_giveback_common looks the handle up first in fetched, then in
canceling, then in cancel; a handle in none of them fails -ENOENT with no
state change; a handle found in fetched completes normally (retval 0) even
with entries in the cancel lists; a handle found in a cancel list yields
-ECANCELED no matter which status the worker supplied (status is universally
quantified), and the transfer is still given back with the supplied data
recorded. -/
theorem claim_C2_giveback_lookup (vhc : Vhci) (handle : Nat)
    (status act iso_count err_count : Int) (buf iso : Bool) :
    (vhc.fetched.find? (fun u => u.handle == handle) = none →
     vhc.canceling.find? (fun u => u.handle == handle) = none →
     vhc.cancel.find? (fun u => u.handle == handle) = none →
     ioc_giveback_common vhc handle status act iso_count err_count buf iso =
       (-ENOENT, vhc)) ∧
    (∀ urbp, vhc.fetched.find? (fun u => u.handle == handle) = some urbp →
     giveback_args_ok urbp.urb act iso_count buf iso = true →
     ioc_giveback_common vhc handle status act iso_count err_count buf iso =
       (0, vhci_urb_giveback vhc QueueId.fetched
             (maybe_set_status
               { urbp with urb :=
                   { urbp.urb with actual_length := act, error_count := err_count } }
               status))) ∧
    (vhc.fetched.find? (fun u => u.handle == handle) = none →
     ∀ urbp, vhc.canceling.find? (fun u => u.handle == handle) = some urbp →
     giveback_args_ok urbp.urb act iso_count buf iso = true →
     ioc_giveback_common vhc handle status act iso_count err_count buf iso =
       (-ECANCELED, vhci_urb_giveback vhc QueueId.canceling
             (maybe_set_status
               { urbp with urb :=
                   { urbp.urb with actual_length := act, error_count := err_count } }
               status))) ∧
    (vhc.fetched.find? (fun u => u.handle == handle) = none →
     vhc.canceling.find? (fun u => u.handle == handle) = none →
     ∀ urbp, vhc.cancel.find? (fun u => u.handle == handle) = some urbp →
     giveback_args_ok urbp.urb act iso_count buf iso = true →
     ioc_giveback_common vhc handle status act iso_count err_count buf iso =
       (-ECANCELED, vhci_urb_giveback vhc QueueId.cancel
             (maybe_set_status
               { urbp with urb :=
                   { urbp.urb with actual_length := act, error_count := err_count } }
               status))) := by
  refine ⟨?_, ?_, ?_, ?_⟩
  · intro h1 h2 h3
    simp only [ioc_giveback_common, ioc_giveback_find, h1, h2, h3]
  · intro urbp h1 hok
    simp only [ioc_giveback_common, ioc_giveback_find, h1]
    rw [ioc_giveback_body_ok vhc QueueId.fetched urbp status act iso_count err_count
        buf iso hok]
    simp
  · intro h1 urbp h2 hok
    simp only [ioc_giveback_common, ioc_giveback_find, h1, h2]
    rw [ioc_giveback_body_ok vhc QueueId.canceling urbp status act iso_count err_count
        buf iso hok]
    simp
  · intro h1 h2 urbp h3 hok
    simp only [ioc_giveback_common, ioc_giveback_find, h1, h2, h3]
    rw [ioc_giveback_body_ok vhc QueueId.cancel urbp status act iso_count err_count
        buf iso hok]
    simp

/-- A bulk OUT transfer for the C2 scenario. -/
def c2_urb : Urb :=
  { pipeType := .bulk, pipeIn := false, setup_packet := none, has_buffer := true,
    transfer_buffer_length := 8, number_of_packets := 0, actual_length := 0,
    error_count := 0, unlinked := 0 }

/-- A controller whose canceling list holds the transfer with handle 5 (the
worker has been told about the cancellation, the giveback races in). -/
def c2_vhc : Vhci :=
  { emptyVhci 1 with canceling := [{ handle := 5, urb := c2_urb, status := 0 }] }

/-- Witness: a giveback for handle 5 with a success status (0) still returns
-ECANCELED — cancellation wins; a giveback for an unknown handle 6 fails
-ENOENT without touching the state. -/
theorem claim_C2_giveback_lookup_witness :
    (ioc_giveback_common c2_vhc 5 0 0 0 0 false false).1 = -ECANCELED ∧
    ioc_giveback_common c2_vhc 6 0 0 0 0 false false = (-ENOENT, c2_vhc) := by
  have h3 :=
    (claim_C2_giveback_lookup c2_vhc 5 0 0 0 0 false false).2.2.1 (by decide)
      { handle := 5, urb := c2_urb, status := 0 } (by decide) (by decide)
  have h1 :=
    (claim_C2_giveback_lookup c2_vhc 6 0 0 0 0 false false).1
      (by decide) (by decide) (by decide)
  exact ⟨by rw [h3], h1⟩

end VhciHcd

namespace VhciHcd

/-! ## Claim C1 — work-fetch priority -/

/-- The port-scan loop finds a port whenever some in-range port has its
pending bit set. -/
theorem findPortUpdate_isSome (pu off count p : Nat) (hoff : off < count)
    (hp : p < count) (hbit : pu &&& (1 <<< (p + 1)) ≠ 0) :
    (findPortUpdate pu off count).isSome = true := by
  have hi : (p + count - off) % count < count := Nat.mod_lt _ (by omega)
  have hmod : ((p + count - off) % count + off) % count = p := by
    rw [Nat.mod_add_mod, Nat.sub_add_cancel (by omega), Nat.add_mod_right,
        Nat.mod_eq_of_lt hp]
  rcases hfind : (List.range count).find?
      (fun i => pu &&& (1 <<< (((i + off) % count) + 1)) != 0) with _ | j
  · exfalso
    apply List.find?_eq_none.mp hfind ((p + count - off) % count)
      (List.mem_range.mpr hi)
    show (pu &&& (1 <<< ((((p + count - off) % count + off) % count) + 1)) != 0) = true
    rw [hmod]
    exact bne_iff_ne.mpr hbit
  · simp [findPortUpdate, hfind]

/-- The inbox loop succeeds (retval 0) exactly when it yields a unit of
work. -/
theorem fetch_inbox_zero_iff_some :
    ∀ (l : List VhciUrbPriv) (vhc : Vhci),
      ((fetch_inbox l vhc).1 = 0 ↔ ((fetch_inbox l vhc).2.1).isSome = true) := by
  intro l
  induction l with
  | nil =>
    intro vhc
    simp only [fetch_inbox]
    constructor
    · intro h; exact absurd h (by decide)
    · intro h; simp at h
  | cons u rest ih =>
    intro vhc
    simp only [fetch_inbox]
    split
    · simp
    · exact ih _

/-- C1: a work-fetch serves the cancel list first (oldest entry, moved to
canceling), else a pending port update, else the oldest valid pending
transfer (moved to fetched); and a fetch succeeds exactly when it yields one
unit of work. -/
theorem claim_C1_fetch_priority (vhc : Vhci) :
    (∀ urbp rest, vhc.cancel = urbp :: rest →
      ioc_fetch_work vhc =
        (0, some (Work.cancelUrb urbp.handle),
         { vhc with cancel := rest, canceling := vhc.canceling ++ [urbp] })) ∧
    (vhc.cancel = [] →
     (∃ p, p < vhc.port_count ∧ vhc.port_update &&& (1 <<< (p + 1)) ≠ 0) →
     ∃ port, (ioc_fetch_work vhc).1 = 0 ∧
       (ioc_fetch_work vhc).2.1 = some (Work.portStat (port + 1)
         (vhc.port port).port_status (vhc.port port).port_change
         (vhc.port port).port_flags)) ∧
    (vhc.cancel = [] → vhc.port_update = 0 →
     ∀ urbp rest, vhc.inbox = urbp :: rest → fetch_urb_valid urbp.urb = true →
      ioc_fetch_work vhc =
        (0, some (Work.processUrb urbp.handle (fetch_buffer_length urbp.urb)),
         { vhc with inbox := rest, fetched := vhc.fetched ++ [urbp] })) ∧
    ((ioc_fetch_work vhc).1 = 0 ↔ ((ioc_fetch_work vhc).2.1).isSome = true) := by
  refine ⟨?_, ?_, ?_, ?_⟩
  · intro urbp rest h
    have hw : has_work vhc = true := by
      simp [has_work, h]
    simp only [ioc_fetch_work, hw, h]
    rw [if_neg (by simp)]
  · intro hcancel hex
    obtain ⟨p, hp, hbit⟩ := hex
    simp only [Vhci.port_count] at hp
    have hpu : vhc.port_update ≠ 0 := fun e => hbit (by rw [e]; simp)
    have hw : has_work vhc = true := by
      simp [has_work, bne_iff_ne.mpr hpu]
    have hcnt : 0 < vhc.ports.length := by omega
    simp only [ioc_fetch_work, hw, hcancel]
    rw [if_neg (by simp)]
    rw [if_pos hpu]
    by_cases hoff : vhc.port_sched_offset ≥ vhc.port_count
    · rw [if_pos hoff]
      simp only [Vhci.port_count]
      have hsome := findPortUpdate_isSome vhc.port_update 0 vhc.ports.length p
        hcnt hp hbit
      obtain ⟨port, hfind⟩ := Option.isSome_iff_exists.mp hsome
      simp only [hfind]
      exact ⟨port, trivial, rfl⟩
    · rw [if_neg hoff]
      simp only [Vhci.port_count] at hoff ⊢
      have hsome := findPortUpdate_isSome vhc.port_update vhc.port_sched_offset
        vhc.ports.length p (by omega) hp hbit
      obtain ⟨port, hfind⟩ := Option.isSome_iff_exists.mp hsome
      simp only [hfind]
      exact ⟨port, trivial, rfl⟩
  · intro hcancel hpu urbp rest hinbox hvalid
    have hw : has_work vhc = true := by
      simp [has_work, hinbox]
    simp only [ioc_fetch_work, hw, hcancel]
    rw [if_neg (by simp)]
    rw [if_neg (by simp [hpu])]
    simp only [hinbox, fetch_inbox]
    rw [if_pos hvalid, hcancel]
  · by_cases hw : has_work vhc = true
    · simp only [ioc_fetch_work, hw]
      rw [if_neg (by simp)]
      rcases hcancel : vhc.cancel with _ | ⟨urbp, rest⟩
      · by_cases hpu : vhc.port_update ≠ 0
        · rw [if_pos hpu]
          by_cases hoff : vhc.port_sched_offset ≥ vhc.port_count
          · rw [if_pos hoff]
            simp only [Vhci.port_count]
            rcases hfind : findPortUpdate vhc.port_update 0 vhc.ports.length
              with _ | port
            · simp only [hfind]
              exact fetch_inbox_zero_iff_some _ _
            · simp only [hfind]
              simp
          · rw [if_neg hoff]
            simp only [Vhci.port_count]
            rcases hfind : findPortUpdate vhc.port_update vhc.port_sched_offset
              vhc.ports.length with _ | port
            · simp only [hfind]
              exact fetch_inbox_zero_iff_some _ _
            · simp only [hfind]
              simp
        · rw [if_neg hpu]
          exact fetch_inbox_zero_iff_some _ _
      · simp
    · have hw' : has_work vhc = false := by
        cases h : has_work vhc
        · rfl
        · exact absurd h hw
      simp only [ioc_fetch_work, hw', if_true]
      constructor
      · intro h; exact absurd h (by decide)
      · intro h; simp at h

/-- Controller with one entry in each of the cancel list, the pending-update
mask (port 1) and the inbox: the fetch serves the cancel first. -/
def c1_vhc : Vhci :=
  { emptyVhci 1 with
      cancel := [{ handle := 11, urb := c4_urb, status := 0 }],
      port_update := 2,
      inbox := [{ handle := 12, urb := c4_urb, status := 0 }] }

/-- Witness: with a cancel, a port update and a pending transfer all queued,
fetch returns the cancel unit; with only the port update and the transfer,
it returns the port status; with only the transfer, it returns the process
unit. -/
theorem claim_C1_fetch_priority_witness :
    ioc_fetch_work c1_vhc =
      (0, some (Work.cancelUrb 11),
       { c1_vhc with cancel := [],
                     canceling := [{ handle := 11, urb := c4_urb, status := 0 }] }) ∧
    (∃ port, (ioc_fetch_work { c1_vhc with cancel := [] }).1 = 0 ∧
       (ioc_fetch_work { c1_vhc with cancel := [] }).2.1 =
         some (Work.portStat (port + 1)
           (({ c1_vhc with cancel := [] } : Vhci).port port).port_status
           (({ c1_vhc with cancel := [] } : Vhci).port port).port_change
           (({ c1_vhc with cancel := [] } : Vhci).port port).port_flags)) ∧
    ioc_fetch_work { c1_vhc with cancel := [], port_update := 0 } =
      (0, some (Work.processUrb 12 8),
       { c1_vhc with cancel := [], port_update := 0, inbox := [],
                     fetched := [{ handle := 12, urb := c4_urb, status := 0 }] }) :=
  ⟨(claim_C1_fetch_priority c1_vhc).1 { handle := 11, urb := c4_urb, status := 0 } []
      (by decide),
   (claim_C1_fetch_priority { c1_vhc with cancel := [] }).2.1 rfl
      ⟨0, by decide, by decide⟩,
   (claim_C1_fetch_priority { c1_vhc with cancel := [], port_update := 0 }).2.2.1 rfl rfl
      { handle := 12, urb := c4_urb, status := 0 } [] (by decide) (by decide)⟩

end VhciHcd

namespace VhciHcd

/-! ## Claim C6 — round-robin port scheduling -/

/-- find? over an initial segment returns the first index satisfying the
predicate. -/
theorem find?_range_first (p : Nat → Bool) :
    ∀ (n i : Nat), (List.range n).find? p = some i →
      p i = true ∧ i < n ∧ ∀ j < i, p j = false := by
  intro n
  induction n with
  | zero => intro i h; simp at h
  | succ n ih =>
    intro i h
    rw [List.range_succ, List.find?_append] at h
    rcases hfind : (List.range n).find? p with _ | k
    · rw [hfind] at h
      by_cases hpn : p n = true
      · have hi : i = n := by simp [List.find?, hpn] at h; omega
        subst hi
        refine ⟨hpn, by omega, ?_⟩
        intro j hj
        have hnone := List.find?_eq_none.mp hfind j (List.mem_range.mpr hj)
        cases hpj : p j
        · rfl
        · exact absurd hpj hnone
      · simp [List.find?, Bool.of_not_eq_true hpn] at h
    · rw [hfind] at h
      simp at h
      subst h
      obtain ⟨h1, h2, h3⟩ := ih k hfind
      exact ⟨h1, by omega, h3⟩

/-- Worker fetch loop: perform n consecutive work-fetch calls, collecting
the units of work they report. -/
def fetchWorks : Nat → Vhci → List (Option Work) × Vhci
  | 0, vhc => ([], vhc)
  | k + 1, vhc =>
    let r := ioc_fetch_work vhc
    let rest := fetchWorks k r.2.2
    (r.2.1 :: rest.1, rest.2)

/-- N fresh ports, every one marked as needing a report (bits 1..N), offset
at 0 and no transfer work. -/
def rrScenario (n : Nat) : Vhci :=
  { emptyVhci n with port_update := 2 ^ (n + 1) - 2 }

/-- C6: (1) when the scan locates a pending port, the fetch reports exactly
that port's registers, clears its pending bit (andn32) and advances the
offset just past it; (2) the scanned port is the first pending one in
rotation order starting at the recorded offset, wrapping modulo the port
count; (3) clearing through andn32 touches only the served bit; (4) with N
ports all pending and nothing else queued, N consecutive fetches report
ports 1..N each exactly once, in rotating order (N up to the driver's
31-port bound). -/
theorem claim_C6_round_robin :
    (∀ (vhc : Vhci) (port : Nat), vhc.cancel = [] → vhc.port_update ≠ 0 →
      vhc.port_sched_offset < vhc.port_count →
      findPortUpdate vhc.port_update vhc.port_sched_offset vhc.port_count = some port →
      ioc_fetch_work vhc =
        (0, some (Work.portStat (port + 1) (vhc.port port).port_status
              (vhc.port port).port_change (vhc.port port).port_flags),
         { vhc with port_update := andn32 vhc.port_update (1 <<< (port + 1)),
                    port_sched_offset := port + 1 })) ∧
    (∀ pu off cnt port, findPortUpdate pu off cnt = some port →
      ∃ k, k < cnt ∧ port = (k + off) % cnt ∧
        pu &&& (1 <<< (port + 1)) ≠ 0 ∧
        ∀ k' < k, pu &&& (1 <<< (((k' + off) % cnt) + 1)) = 0) ∧
    (∀ pu m j, j ≤ 31 → j ≠ m → (andn32 pu (1 <<< m)).testBit j = pu.testBit j) ∧
    (∀ pu m, m ≤ 31 → (andn32 pu (1 <<< m)).testBit m = false) ∧
    (∀ N, 1 ≤ N → N ≤ 31 →
      (fetchWorks N (rrScenario N)).1 =
        (List.range N).map (fun p => some (Work.portStat (p + 1) 0 0 0))) := by
  refine ⟨?_, ?_, ?_, ?_, ?_⟩
  · intro vhc port hcancel hpu hoff hfind
    have hw : has_work vhc = true := by
      simp [has_work, bne_iff_ne.mpr hpu]
    simp only [Vhci.port_count] at hoff hfind
    simp only [ioc_fetch_work, hw, hcancel]
    rw [if_neg (by simp)]
    rw [if_pos hpu]
    rw [if_neg (by simp only [Vhci.port_count]; omega)]
    simp only [Vhci.port_count, hfind]
    rw [hcancel]
  · intro pu off cnt port hfind
    simp only [findPortUpdate, Option.map_eq_some'] at hfind
    obtain ⟨k, hk, hkp⟩ := hfind
    obtain ⟨h1, h2, h3⟩ := find?_range_first _ cnt k hk
    refine ⟨k, h2, hkp.symm, ?_, ?_⟩
    · rw [← hkp]
      exact bne_iff_ne.mp h1
    · intro k' hk'
      have := h3 k' hk'
      simpa using this
  · intro pu m j hj hne
    rw [testBit_andn32 _ _ _ (by omega)]
    rw [Nat.one_shiftLeft, Nat.testBit_two_pow]
    simp [Ne.symm hne]
  · intro pu m hm
    rw [testBit_andn32 _ _ _ (by omega)]
    rw [Nat.one_shiftLeft, Nat.testBit_two_pow_self]
    simp
  · intro N h1 h31
    interval_cases N <;> decide

/-- Witness: the dispatch equation at a concrete 3-port state with ports 1
and 3 pending and the offset pointing past port 1 (the scan wraps to serve
port 3 first), plus the rotation scenario at N = 3. -/
theorem claim_C6_round_robin_witness :
    ioc_fetch_work
        { emptyVhci 3 with port_update := 0b1010, port_sched_offset := 2 } =
      (0, some (Work.portStat 3 0 0 0),
       { emptyVhci 3 with port_update := 0b0010, port_sched_offset := 3 }) ∧
    (fetchWorks 3 (rrScenario 3)).1 =
      [some (Work.portStat 1 0 0 0), some (Work.portStat 2 0 0 0),
       some (Work.portStat 3 0 0 0)] := by
  constructor
  · have h := (claim_C6_round_robin).1
      { emptyVhci 3 with port_update := 0b1010, port_sched_offset := 2 } 2
      (by decide) (by decide) (by decide) (by decide)
    rw [h]
    decide
  · have h := (claim_C6_round_robin).2.2.2.2 3 (by decide) (by decide)
    rw [h]
    decide

end VhciHcd
